import Mathlib

/-!
Verification development for the zimbra-tracker repository.

The Python sources (`refname_utils.py`, `track_refs.py`, `generate_changes.py`)
are shallowly embedded below: pure functions become Lean functions, file and
git state becomes explicit data (association lists keyed by path / name), and
fallible operations return `Option`.  External collaborators (the Python
standard library's `urllib.parse.quote`/`unquote` and `json.loads`, and git
plumbing) are modelled at their interface boundary, as the spec directs.
-/

set_option linter.unusedVariables false

namespace ZimbraTracker

/-- Generic first-match association-list lookup (the model of Python `dict`
access; manifests and file trees below are insertion-ordered key/value lists,
matching Python's insertion-ordered `dict`). -/
def lookupA {α : Type} : List (String × α) → String → Option α
  | [], _ => none
  | (k2, v) :: rest, k => if k2 = k then some v else lookupA rest k

/-- Generic association-list update: replace the first binding of the key, or
append a new binding (the model of `d[k] = v` / writing a file at a path). -/
def setA {α : Type} : List (String × α) → String → α → List (String × α)
  | [], k, v => [(k, v)]
  | (k2, v2) :: rest, k, v => if k2 = k then (k, v) :: rest else (k2, v2) :: setA rest k v

namespace RefnameUtils

/-!
## refname_utils.py

`safe_refname_to_filename` calls `urllib.parse.quote(ref_name, safe='A-Za-z0-9-_.')`
and appends `".txt"`; `filename_to_refname` strips a trailing `".txt"` and calls
`urllib.parse.unquote`.  `quote` percent-encodes the UTF-8 bytes of its input,
so we model a ref name as its UTF-8 byte sequence: a `List Nat` whose elements
are below 256 (UTF-8 encoding and decoding is a bijection between strings and
valid byte sequences and is orthogonal to the percent-encoding round trip).
-/

/-- A byte string: the UTF-8 bytes of a Python `str`. -/
abbrev ByteStr := List Nat

/-- The bytes CPython's `urllib.parse.quote` never quotes regardless of the
`safe` parameter: ASCII letters, digits, and `_ . - ~` (the RFC 3986
unreserved characters). -/
def alwaysSafeByte (b : Nat) : Bool :=
  (65 ≤ b && b ≤ 90) || (97 ≤ b && b ≤ 122) || (48 ≤ b && b ≤ 57) ||
  b == 95 || b == 46 || b == 45 || b == 126

/-- The literal characters of the `safe='A-Za-z0-9-_.'` argument.  Python
treats `safe` as a set of characters, not a character-class pattern, so this
is exactly `{A, -, Z, a, z, 0, 9, _, .}`. -/
def safeParamBytes : List Nat := [65, 45, 90, 97, 122, 48, 57, 95, 46]

/-- A byte is left unquoted iff it is always-safe or listed in `safe`. -/
def quoteSafe (b : Nat) : Bool := alwaysSafeByte b || safeParamBytes.contains b

/-- Upper-case hex digit for a nibble, as `quote` emits (`%XX` upper case). -/
def hexDigitUpper (n : Nat) : Nat := if n < 10 then 48 + n else 55 + n

/-- Encoding of one byte by `urllib.parse.quote`. -/
def quoteByte (b : Nat) : ByteStr :=
  if quoteSafe b then [b] else [37, hexDigitUpper (b / 16), hexDigitUpper (b % 16)]

/-- `urllib.parse.quote(s, safe='A-Za-z0-9-_.')` on the byte level. -/
def pyQuote (s : ByteStr) : ByteStr := (s.map quoteByte).flatten

/-- The bytes of the appended `".txt"` suffix. -/
def txtSuffix : ByteStr := [46, 116, 120, 116]

/-- `refname_utils.safe_refname_to_filename`. -/
def safe_refname_to_filename (r : ByteStr) : ByteStr := pyQuote r ++ txtSuffix

/-- Is a byte an ASCII hex digit (either case), as `unquote` accepts. -/
def isHexByte (b : Nat) : Bool :=
  (48 ≤ b && b ≤ 57) || (65 ≤ b && b ≤ 70) || (97 ≤ b && b ≤ 102)

/-- Value of an ASCII hex digit. -/
def hexVal (b : Nat) : Nat := if b ≤ 57 then b - 48 else if b ≤ 70 then b - 55 else b - 87

/-- `urllib.parse.unquote` on the byte level: each `%XX` with two hex digits
becomes the byte `XX`; a `%` not followed by two hex digits is kept. -/
def pyUnquote : ByteStr → ByteStr
  | [] => []
  | c :: a :: b :: rest2 =>
    if c == 37 && isHexByte a && isHexByte b then (hexVal a * 16 + hexVal b) :: pyUnquote rest2
    else c :: pyUnquote (a :: b :: rest2)
  | c :: rest => c :: pyUnquote rest

/-- `refname_utils.filename_to_refname`: strip a trailing `".txt"`
(`filename[:-4]`, i.e. keep the first `length - 4` bytes) and percent-decode. -/
def filename_to_refname (f : ByteStr) : ByteStr :=
  pyUnquote (if txtSuffix <:+ f then f.take (f.length - 4) else f)

/-- The character class named by the claim, `[A-Za-z0-9._-]` (no tilde). -/
def claimSafeClass (b : Nat) : Bool :=
  (65 ≤ b && b ≤ 90) || (97 ≤ b && b ≤ 122) || (48 ≤ b && b ≤ 57) ||
  b == 46 || b == 95 || b == 45

/-- The amended character class: the RFC 3986 unreserved bytes
`[A-Za-z0-9._~-]`, which CPython's `quote` never encodes. -/
def unreservedClass (b : Nat) : Bool :=
  (65 ≤ b && b ≤ 90) || (97 ≤ b && b ≤ 122) || (48 ≤ b && b ≤ 57) ||
  b == 46 || b == 95 || b == 45 || b == 126

end RefnameUtils

namespace TrackRefs

/-!
## track_refs.py

`export_ref_commits` runs
`git log --reverse --pretty=format:%H<US>%ct<US>%an<US>%cn<US>%s <ref>`
(oldest commit first), writes one JSON object per line to the ref's commit
log file, and records `commit_lines[-1].split()[0]` as the manifest's
`latest_commit`.  We embed it as a function on the list of raw output lines
(each a `List Char`).
-/

/-- The Unit Separator `\x1f` used in the git pretty format. -/
def usSep : Char := '\x1f'

/-- Python `str.isspace` on the Latin-1 range: tab through carriage return,
the file/group/record/unit separators `\x1c`–`\x1f`, space, next-line `\x85`
and no-break space `\xa0`.  (Unicode space characters above `\xa0` also count
in Python but cannot occur in the hex hashes and decimal timestamps the
proofs below constrain.)  Note `\x1f` — the field separator — is whitespace
for Python's `str.split()`. -/
def pyIsSpace (c : Char) : Bool :=
  (9 ≤ c.toNat && c.toNat ≤ 13) || c.toNat == 28 || c.toNat == 29 || c.toNat == 30 ||
  c.toNat == 31 || c.toNat == 32 || c.toNat == 133 || c.toNat == 160

/-- The first token of Python `line.split()` (split on whitespace runs):
`none` when the line is whitespace-only, in which case `split()[0]` raises
`IndexError` (a fatal abort, modelled as `none` further below). -/
def pyFirstToken (l : List Char) : Option (List Char) :=
  match l.dropWhile pyIsSpace with
  | [] => none
  | c :: rest => some ((c :: rest).takeWhile (fun ch => !pyIsSpace ch))

/-- Split a character list at the first occurrence of `sep`:
`none` if `sep` does not occur. -/
def breakAtSep (sep : Char) : List Char → Option (List Char × List Char)
  | [] => none
  | c :: cs =>
    if c = sep then some ([], cs)
    else
      match breakAtSep sep cs with
      | none => none
      | some (a, b2) => some (c :: a, b2)

/-- Python `line.split(sep, maxsplit)`: at most `maxsplit` splits, the last
part keeps any remaining separators. -/
def splitSepMax (sep : Char) : Nat → List Char → List (List Char)
  | 0, l => [l]
  | Nat.succ k, l =>
    match breakAtSep sep l with
    | none => [l]
    | some (a, b2) => a :: splitSepMax sep k b2

/-- Python `int(s)` for the nonnegative decimal strings `%ct` emits;
any other input raises `ValueError`, modelled as `none`. -/
def pyIntDigits (l : List Char) : Option Nat :=
  if l.isEmpty || l.any (fun c => !c.isDigit) then none
  else some (l.foldl (fun n c => n * 10 + (c.toNat - 48)) 0)

/-- One commit object as written to the commit log: exactly the five fields
of the dict literal in `export_ref_commits`. -/
structure CommitJson where
  commit : List Char
  timestamp : Nat
  author : List Char
  committer : List Char
  message : List Char
deriving DecidableEq

/-- The `"Unknown"` fallback: `author if author else "Unknown"`. -/
def orUnknown (l : List Char) : List Char :=
  if l.isEmpty then ['U', 'n', 'k', 'n', 'o', 'w', 'n'] else l

/-- The write loop of `export_ref_commits`: split each line on `\x1f` with
`maxsplit=4`; skip lines with fewer than five parts; `int()` failure on the
timestamp raises (aborting the export: `none`); default empty author and
committer names to `"Unknown"`. -/
def writeRecords : List (List Char) → Option (List CommitJson)
  | [] => some []
  | line :: rest =>
    match splitSepMax usSep 4 line with
    | [h, ts, au, cm, msg] =>
      match pyIntDigits ts with
      | none => none
      | some n =>
        match writeRecords rest with
        | none => none
        | some rs => some (⟨h, n, orUnknown au, orUnknown cm, msg⟩ :: rs)
    | _ => writeRecords rest

/-- `export_ref_commits` on the git log output lines: the records written to
the commit log file and the `latest_commit` recorded in the manifest entry
(`commit_lines[-1].split()[0]` when the log is non-empty, `None` otherwise). -/
def export_ref_commits (commit_lines : List (List Char)) :
    Option (List CommitJson × Option (List Char)) :=
  match writeRecords commit_lines with
  | none => none
  | some rs =>
    match commit_lines.getLast? with
    | none => some (rs, none)
    | some line =>
      match pyFirstToken line with
      | none => none
      | some tok => some (rs, some tok)

/-- Lower-case hex digit, as `json.dumps` emits in `\u00XX` escapes. -/
def hexLowerCh (n : Nat) : Char := if n < 10 then Char.ofNat (48 + n) else Char.ofNat (87 + n)

/-- `json.dumps` escaping of one character (`ensure_ascii=False`). -/
def jsonEscapeChar (c : Char) : List Char :=
  if c = '"' then ['\\', '"']
  else if c = '\\' then ['\\', '\\']
  else if c = '\n' then ['\\', 'n']
  else if c = '\t' then ['\\', 't']
  else if c = '\r' then ['\\', 'r']
  else if c.toNat == 8 then ['\\', 'b']
  else if c.toNat == 12 then ['\\', 'f']
  else if c.toNat < 32 then
    ['\\', 'u', '0', '0', hexLowerCh (c.toNat / 16), hexLowerCh (c.toNat % 16)]
  else [c]

/-- A JSON string literal. -/
def jsonStr (l : List Char) : List Char := '"' :: (l.map jsonEscapeChar).flatten ++ ['"']

/-- Decimal rendering of a natural number. -/
def natDecimal (n : Nat) : List Char :=
  if h : n < 10 then [Char.ofNat (48 + n)]
  else natDecimal (n / 10) ++ [Char.ofNat (48 + n % 10)]
  termination_by n
  decreasing_by
    exact Nat.div_lt_self (by omega) (by omega)

/-- `json.dumps` of one commit object (insertion key order, default
separators). -/
def dumpsCommit (r : CommitJson) : List Char :=
  [Char.ofNat 123]
  ++ "\"commit\": ".toList ++ jsonStr r.commit
  ++ ", \"timestamp\": ".toList ++ natDecimal r.timestamp
  ++ ", \"author\": ".toList ++ jsonStr r.author
  ++ ", \"committer\": ".toList ++ jsonStr r.committer
  ++ ", \"message\": ".toList ++ jsonStr r.message
  ++ [Char.ofNat 125]

/-- The bytes of the commit log file: `f.write(json.dumps(obj) + "\n")` for
each record, in write order. -/
def writtenFile (commit_lines : List (List Char)) : Option (List Char) :=
  match writeRecords commit_lines with
  | none => none
  | some rs => some ((rs.map (fun r => dumpsCommit r ++ ['\n'])).flatten)

/-- The five fields of one well-formed git log output line. -/
structure GitLogParts where
  hash : List Char
  ts : List Char
  author : List Char
  committer : List Char
  message : List Char

/-- Reassemble the raw line `%H\x1f%ct\x1f%an\x1f%cn\x1f%s`. -/
def mkGitLine (p : GitLogParts) : List Char :=
  p.hash ++ usSep :: (p.ts ++ usSep :: (p.author ++ usSep :: (p.committer ++ usSep :: p.message)))

/-- Lower-case hex digit character, the alphabet of `%H`. -/
def isHexLowerCh (c : Char) : Bool :=
  (48 ≤ c.toNat && c.toNat ≤ 57) || (97 ≤ c.toNat && c.toNat ≤ 102)

/-- Well-formedness of actual git log output: the hash is a non-empty
lower-case hex string, the timestamp a non-empty decimal string, and the
name fields contain no `\x1f` (git never emits the separator inside `%an`
or `%cn`). -/
def GoodParts (p : GitLogParts) : Prop :=
  p.hash ≠ [] ∧ (∀ c ∈ p.hash, isHexLowerCh c = true)
  ∧ p.ts ≠ [] ∧ (∀ c ∈ p.ts, c.isDigit = true)
  ∧ usSep ∉ p.author ∧ usSep ∉ p.committer

instance : DecidablePred GoodParts := fun p => by unfold GoodParts; infer_instance

/-- The commit object a well-formed line is written as. -/
def recordOfParts (p : GitLogParts) : CommitJson :=
  ⟨p.hash, (pyIntDigits p.ts).getD 0, orUnknown p.author, orUnknown p.committer, p.message⟩

/-- Python `str.strip()` on a character list.  Crucially, `\x1f` — the git
field separator — is Python whitespace, so a separator at either end of the
whole output is stripped too. -/
def pyStripChars (l : List Char) : List Char :=
  ((l.dropWhile pyIsSpace).reverse.dropWhile pyIsSpace).reverse

/-- Python `str.splitlines()` for `\n`-separated text (the only line
separator git emits): no trailing empty line for text ending in `\n`. -/
def pySplitLines : List Char → List (List Char)
  | [] => []
  | c :: cs =>
    if c = '\n' then [] :: pySplitLines cs
    else
      match pySplitLines cs with
      | [] => [[c]]
      | l :: ls => (c :: l) :: ls

/-- Join the per-commit lines into the raw stdout of
`git log --pretty=format:…` (newline-separated, no trailing newline). -/
def gitLogStdout : List GitLogParts → List Char
  | [] => []
  | [p] => mkGitLine p
  | p :: ps => mkGitLine p ++ '\n' :: gitLogStdout ps

/-- What `export_ref_commits` actually iterates over: `run()` returns
`result.stdout.strip()`, and the caller applies `.splitlines()`. -/
def runCommitLines (stdout : List Char) : List (List Char) :=
  pySplitLines (pyStripChars stdout)

/-- The failing input for claim C1: a single commit whose subject (`%s`) is
empty — legal git history (`git commit --allow-empty-message`), well-formed
exporter input, but its log line ends in the field separator, which
`stdout.strip()` removes. -/
def emptySubjectCommit : GitLogParts := ⟨['a', '1'], ['7'], ['J'], ['K'], []⟩

/-!
### Snapshot-store append (`has_changes` + the commit step of `main`)

`main` rewrites the exported files in the tracking worktree (it deletes
nothing), then commits iff `git status --porcelain` is non-empty — i.e. iff
some written file is new or differs byte-wise from the previous ledger
entry's tree.  The ledger is the sequence of committed trees, oldest first;
a tree is an association list from path to file bytes.
-/

/-- A committed tree / working tree: path to file contents. -/
abbrev FileTree := List (String × String)

/-- `git status --porcelain` non-empty after the run wrote the files `ws`
over the checkout of the head tree: some written file is new or changed. -/
def has_changes (head : FileTree) (ws : List (String × String)) : Bool :=
  ws.any (fun pc => !(lookupA head pc.1 == some pc.2))

/-- Apply the run's file writes to the checked-out head tree. -/
def writeFiles (head : FileTree) (ws : List (String × String)) : FileTree :=
  ws.foldl (fun t pc => setA t pc.1 pc.2) head

/-- One export-and-append cycle of `track_refs.main`: write the recomputed
manifests `ws` (a deterministic function of the source state — calling this
twice with the same `ws` models two runs over byte-identical source state),
then `git add . && git commit` iff `has_changes`. -/
def runTrackingCycle (ledger : List FileTree) (ws : List (String × String)) : List FileTree :=
  if has_changes (ledger.getLastD []) ws then ledger ++ [writeFiles (ledger.getLastD []) ws]
  else ledger

end TrackRefs

namespace GenerateChanges

/-!
## generate_changes.py

The renderer walks the tracking ledger newest to oldest, diffs each snapshot
against its predecessor, and emits one markdown document.  Strings are Lean
`String`s; every `f"..."` is transcribed as explicit concatenation.
-/

/-- One entry of `load_repo_config`'s result (`.get` with defaults is used on
it, so both keys are `Option`s; a repo absent from the config corresponds to
a missing association-list entry, i.e. Python's `repo_config.get(repo_id, {})`
returning `{}`). -/
structure RepoCfg where
  base : Option String
  platform : Option String
deriving DecidableEq

/-- The parsed `zimbra_tracked_repos.txt` configuration. -/
abbrev RepoConfig := List (String × RepoCfg)

/-- `repo_config.get(repo_id, {}).get("base", f"https://github.com/Zimbra/{repo_id}")`. -/
def cfgBase (cfg : RepoConfig) (repo_id : String) : String :=
  match lookupA cfg repo_id with
  | none => "https://github.com/Zimbra/" ++ repo_id
  | some e => e.base.getD ("https://github.com/Zimbra/" ++ repo_id)

/-- `repo_config.get(repo_id, {}).get("platform", "github")`. -/
def cfgPlatform (cfg : RepoConfig) (repo_id : String) : String :=
  match lookupA cfg repo_id with
  | none => "github"
  | some e => e.platform.getD "github"

/-- The URL bundle returned by `make_repo_links`: always the four keys
`ref`, `tree`, `commits`, `commit` (the last is `None` when no commit hash
was supplied). -/
structure RepoLinks where
  ref : String
  tree : String
  commits : String
  commit : Option String
deriving DecidableEq

/-- `f"{base_url}{mid}{commit_hash}" if commit_hash else None` — Python
truthiness: both `None` and the empty string give `None`. -/
def commitUrl (base_url mid : String) (commit_hash : Option String) : Option String :=
  match commit_hash with
  | none => none
  | some h => if h = "" then none else some (base_url ++ mid ++ h)

/-- `generate_changes.make_repo_links`: pure and total.  `platform` selects
one of the two supported URL shapes; anything else falls back to the
GitHub-tag-style shape (regardless of `ty`). -/
def make_repo_links (base_url platform repo_id ref_name : String)
    (commit_hash : Option String) (ty : String) : RepoLinks :=
  if platform = "github" then
    if ty = "branch" then
      { ref := base_url ++ "/tree/" ++ ref_name
        tree := base_url ++ "/tree/" ++ ref_name
        commits := base_url ++ "/commits/" ++ ref_name
        commit := commitUrl base_url "/commit/" commit_hash }
    else
      { ref := base_url ++ "/releases/tag/" ++ ref_name
        tree := base_url ++ "/tree/" ++ ref_name
        commits := base_url ++ "/commits/" ++ ref_name
        commit := commitUrl base_url "/commit/" commit_hash }
  else if platform = "gitlab" then
    if ty = "branch" then
      { ref := base_url ++ "/-/tree/" ++ ref_name
        tree := base_url ++ "/-/tree/" ++ ref_name
        commits := base_url ++ "/-/commits/" ++ ref_name
        commit := commitUrl base_url "/-/commit/" commit_hash }
    else
      { ref := base_url ++ "/-/tags/" ++ ref_name
        tree := base_url ++ "/-/tree/" ++ ref_name
        commits := base_url ++ "/-/commits/" ++ ref_name
        commit := commitUrl base_url "/-/commit/" commit_hash }
  else
    { ref := base_url ++ "/releases/tag/" ++ ref_name
      tree := base_url ++ "/tree/" ++ ref_name
      commits := base_url ++ "/commits/" ++ ref_name
      commit := commitUrl base_url "/commit/" commit_hash }

/-- The default fallback URL shape named by the spec: "unknown platform
degrades to the fallback shape, never errors" — GitHub-style URLs with the
tag-style `ref` link.  Written from the spec's words, to be compared against
the source-translated `make_repo_links`. -/
def specFallbackLinks (base_url ref_name : String) (commit_hash : Option String) : RepoLinks :=
  { ref := base_url ++ "/releases/tag/" ++ ref_name
    tree := base_url ++ "/tree/" ++ ref_name
    commits := base_url ++ "/commits/" ++ ref_name
    commit := commitUrl base_url "/commit/" commit_hash }

/-- A commit dictionary as parsed from one commit-log line; every key may be
missing (`format_commit` uses `.get` with defaults throughout). -/
structure CommitDict where
  commit : Option String
  timestamp : Option Int
  author : Option String
  committer : Option String
  message : Option String
deriving DecidableEq

/-- Python string slicing `s[:n]`. -/
def pySlice (s : String) (n : Nat) : String := String.mk (s.data.take n)

/-- `f"{x}"` for an optional string: `None` renders as `"None"`. -/
def optStr (o : Option String) : String :=
  match o with
  | none => "None"
  | some s => s

/-- Two-digit zero-padded decimal. -/
def pad2 (n : Nat) : String := if n < 10 then "0" ++ toString n else toString n

/-- Four-digit zero-padded decimal (years in scope are 1970 ≤ y ≤ 9999). -/
def pad4 (n : Nat) : String :=
  if n < 10 then "000" ++ toString n
  else if n < 100 then "00" ++ toString n
  else if n < 1000 then "0" ++ toString n
  else toString n

/-- Proleptic Gregorian date from days since 1970-01-01 (may be negative):
the standard civil-from-days algorithm, as used by `datetime`. -/
def civilFromDays (z0 : Int) : Int × Nat × Nat :=
  let z := z0 + 719468
  let era := z.fdiv 146097
  let doe := (z - era * 146097).toNat
  let yoe := (doe - doe / 1460 + doe / 36524 - doe / 146096) / 365
  let y := (yoe : Int) + era * 400
  let doy := doe - (365 * yoe + yoe / 4 - yoe / 100)
  let mp := (5 * doy + 2) / 153
  let d := doy - (153 * mp + 2) / 5 + 1
  let m := if mp < 10 then mp + 3 else mp - 9
  (if m ≤ 2 then y + 1 else y, m, d)

/-- `datetime.utcfromtimestamp(ts).strftime("%Y-%m-%d %H:%M:%S UTC")` for a
timestamp inside `datetime`'s supported range (UTC years 1–9999; see
`pyUtcFromTimestamp` for the `ValueError` outside it). -/
def formatUtcTimestamp (ts : Int) : String :=
  let days := ts.fdiv 86400
  let rem := (ts - days * 86400).toNat
  match civilFromDays days with
  | (y, m, d) =>
    pad4 y.toNat ++ "-" ++ pad2 m ++ "-" ++ pad2 d ++ " "
      ++ pad2 (rem / 3600) ++ ":" ++ pad2 (rem % 3600 / 60) ++ ":" ++ pad2 (rem % 60) ++ " UTC"

/-- `generate_changes.format_commit` on timestamps inside `datetime`'s
supported range (the exporter's `%ct` values; see `format_commit_py` for
the standard library's partiality outside it): render one commit line,
substituting defaults for any missing key, truncating the hash to 12
characters, and linking through `make_repo_links` (a `None` commit link
renders as the string `"None"`, as in the Python f-string). -/
def format_commit (cfg : RepoConfig) (c : CommitDict) (repo_id : String) (pfx : String) :
    String :=
  let chash := pySlice (c.commit.getD "unknown") 12
  let msg := c.message.getD "_(no message)_"
  let author := c.author.getD "Unknown"
  let committer := c.committer.getD "Unknown"
  let dt := formatUtcTimestamp (c.timestamp.getD 0)
  let links := make_repo_links (cfgBase cfg repo_id) (cfgPlatform cfg repo_id)
    repo_id "" (some chash) "tag"
  let github_url := optStr links.commit
  let prefix_str := if pfx = "" then "_" else "**" ++ pfx ++ "**"
  "    - " ++ dt ++ " | " ++ prefix_str ++ " | **[" ++ chash ++ "](" ++ github_url
    ++ ")** [" ++ msg ++ "](" ++ github_url ++ ") | authored by *" ++ author
    ++ "* | committed by *" ++ committer ++ "*\n"

/-- The timestamps `datetime.utcfromtimestamp` accepts: seconds whose UTC
datetime falls in years 1–9999, i.e. `-62135596800 ≤ ts ≤ 253402300799`
(verified against CPython: `-62135596800` is 0001-01-01 00:00:00 and
`253402300799` is 9999-12-31 23:59:59; one second either side raises
`ValueError: year 0/10000 is out of range`). -/
def utcTimestampInRange (ts : Int) : Bool :=
  -62135596800 ≤ ts && ts ≤ 253402300799

/-- `datetime.utcfromtimestamp(ts).strftime(...)` as Python executes it:
`none` models the uncaught `ValueError` outside years 1–9999. -/
def pyUtcFromTimestamp (ts : Int) : Option String :=
  if utcTimestampInRange ts then some (formatUtcTimestamp ts) else none

/-- `generate_changes.format_commit` with the standard library's partiality
made explicit: `none` models the `ValueError` that
`datetime.utcfromtimestamp` raises — and `format_commit` propagates — for a
present timestamp outside years 1–9999. -/
def format_commit_py (cfg : RepoConfig) (c : CommitDict) (repo_id : String) (pfx : String) :
    Option String :=
  let chash := pySlice (c.commit.getD "unknown") 12
  let msg := c.message.getD "_(no message)_"
  let author := c.author.getD "Unknown"
  let committer := c.committer.getD "Unknown"
  match pyUtcFromTimestamp (c.timestamp.getD 0) with
  | none => none
  | some dt =>
    let links := make_repo_links (cfgBase cfg repo_id) (cfgPlatform cfg repo_id)
      repo_id "" (some chash) "tag"
    let github_url := optStr links.commit
    let prefix_str := if pfx = "" then "_" else "**" ++ pfx ++ "**"
    some ("    - " ++ dt ++ " | " ++ prefix_str ++ " | **[" ++ chash ++ "](" ++ github_url
      ++ ")** [" ++ msg ++ "](" ++ github_url ++ ") | authored by *" ++ author
      ++ "* | committed by *" ++ committer ++ "*\n")

/-- The claim's normalization of a commit dictionary: every missing key
replaced by its documented default, and the hash truncated to its first 12
characters.  Written from the claim's words, to be compared against the
source-translated `format_commit`. -/
def claimNormalizedCommit (c : CommitDict) : CommitDict :=
  { commit := some (pySlice (c.commit.getD "unknown") 12)
    timestamp := some (c.timestamp.getD 0)
    author := some (c.author.getD "Unknown")
    committer := some (c.committer.getD "Unknown")
    message := some (c.message.getD "_(no message)_") }

/-- The commit dictionary with every key missing. -/
def emptyCommitDict : CommitDict :=
  { commit := none, timestamp := none, author := none, committer := none, message := none }

/-!
### Snapshot trees and the diff/render pipeline

`read_tracking_file` + `json.loads` are modelled at their outcome:
a file read yields `RawRead.empty` (missing file or empty content — git
`show` failures return `""`), `RawRead.malformed` (non-empty content that
raises `json.JSONDecodeError`), or the parsed value.  Commit-log files are
lists of per-line outcomes.
-/

/-- Outcome of reading and JSON-parsing one persisted file. -/
inductive RawRead (α : Type) where
  | empty : RawRead α
  | malformed : RawRead α
  | ok : α → RawRead α
deriving DecidableEq

/-- The `try: json.loads(raw) if raw else d … except JSONDecodeError: d`
pattern used for every manifest and registry read. -/
def rawOr {α : Type} (d : α) : RawRead α → α
  | .empty => d
  | .malformed => d
  | .ok v => v

/-- One manifest entry `{file: …, latest_commit: …}`; both values are read
with `.get`, and `latest_commit` may be JSON null — both modelled as
`Option`. -/
structure RefEntry where
  file : Option String
  latest_commit : Option String
deriving DecidableEq

/-- A per-repo manifest: ref name to entry, in JSON document order (Python
dicts preserve insertion order, which drives iteration order below). -/
abbrev Manifest := List (String × RefEntry)

/-- Outcome of one commit-log line: blank (skipped), `json.JSONDecodeError`
(skipped), or a parsed commit dictionary. -/
inductive JsonLine where
  | blank : JsonLine
  | malformed : JsonLine
  | ok : CommitDict → JsonLine
deriving DecidableEq

/-- The file tree of one snapshot (one tracking-branch commit), as the
renderer reads it: the repo-set registry, the global tag registry's lines,
the per-repo manifests, and the commit-log files keyed by path.  A path
absent from `files` reads as empty content. -/
structure SnapTree where
  allRepos : RawRead (List String)
  allTagsLines : List String
  tagsManifests : List (String × RawRead Manifest)
  branchesManifests : List (String × RawRead Manifest)
  files : List (String × List JsonLine)

/-- Rendering context: the repo config, `config.SNAPSHOT_MODE` and
`config.SNAPSHOT_ORG`. -/
structure RenderCtx where
  cfg : RepoConfig
  snapshot_mode : Bool
  snapshot_org : String

/-- Python `str.strip()`. -/
def pyStrip (s : String) : String :=
  String.mk (((s.data.dropWhile TrackRefs.pyIsSpace).reverse.dropWhile
    TrackRefs.pyIsSpace).reverse)

/-- Code-point lexicographic comparison of character lists — how Python
compares strings. -/
def charListLe : List Char → List Char → Bool
  | [], _ => true
  | _ :: _, [] => false
  | c :: cs, d :: ds =>
    if c.toNat < d.toNat then true
    else if d.toNat < c.toNat then false
    else charListLe cs ds

/-- Python string `<=`. -/
def strLe (a b : String) : Bool := charListLe a.data b.data

/-- Insert into a sorted list of strings, after equal elements. -/
def insertSorted (x : String) : List String → List String
  | [] => [x]
  | y :: ys => if strLe y x then y :: insertSorted x ys else x :: y :: ys

/-- Python `sorted` on strings (code-point lexicographic; the inputs below
are deduplicated or duplicate-free, so any correct sort agrees). -/
def sortStrings : List String → List String
  | [] => []
  | x :: xs => insertSorted x (sortStrings xs)

/-- Python `set(...)` as a duplicate-free list (keeps the last occurrence;
the result is sorted right after, so which occurrence survives is moot). -/
def pySetList : List String → List String
  | [] => []
  | x :: xs => if xs.contains x then pySetList xs else x :: pySetList xs

/-- Python `sorted(set(l))`. -/
def sortedSet (l : List String) : List String := sortStrings (pySetList l)

/-- Python `sorted(set(a) - set(b))`. -/
def sortedDiff (a b : List String) : List String :=
  sortedSet (a.filter (fun x => !(b.contains x)))

/-- `current_repos` of a snapshot: `json.loads(all-repos.json)` with `[]`
for missing or malformed content. -/
def currentRepoList (t : SnapTree) : List String := rawOr [] t.allRepos

/-- `[t.strip() for t in raw.splitlines() if t.strip()]` over
`all-tags.txt`. -/
def globalTagList (t : SnapTree) : List String :=
  (t.allTagsLines.map pyStrip).filter (fun s => !(s == ""))

/-- A repo's tags manifest: missing file (or missing repo directory in that
snapshot) and parse failure both yield `{}`. -/
def tagManifestAt (t : SnapTree) (repo_id : String) : Manifest :=
  rawOr [] ((lookupA t.tagsManifests repo_id).getD .empty)

/-- A repo's branches manifest, ditto. -/
def branchManifestAt (t : SnapTree) (repo_id : String) : Manifest :=
  rawOr [] ((lookupA t.branchesManifests repo_id).getD .empty)

/-- `read_tracking_file` of a commit-log path: `none` is empty content. -/
def readTreeFile (files : List (String × List JsonLine)) (path : String) :
    Option (List JsonLine) :=
  lookupA files path

/-- The per-line `json.loads` loop: blank and malformed lines are skipped. -/
def loadCommitLines (ls : List JsonLine) : List CommitDict :=
  ls.filterMap (fun l =>
    match l with
    | .ok c => some c
    | _ => none)

/-- Python `l[-5:][::-1]`: the last five elements, newest first. -/
def lastFiveNewestFirst {α : Type} (l : List α) : List α := (l.drop (l.length - 5)).reverse

/-- `generate_changes.format_recent_commits`: append the last five commits
of a ref's commit-log file to the markdown accumulator; empty content
returns the accumulator unchanged. -/
def format_recent_commits (cfg : RepoConfig) (files : List (String × List JsonLine))
    (markdown_output : String) (repo_id ref_name ref_file_path pfx : String) : String :=
  match readTreeFile files ref_file_path with
  | none => markdown_output
  | some ls =>
    ((lastFiveNewestFirst (loadCommitLines ls)).foldl
      (fun md c => md ++ format_commit cfg c repo_id pfx) markdown_output) ++ "\n"

/-- Refs of the current manifest absent from the parent manifest, in
current-manifest order (`if tag_name not in parent_tags`). -/
def classifyNew (cur par : Manifest) : List String :=
  (cur.filter (fun te => (lookupA par te.1).isNone)).map Prod.fst

/-- Refs present in both manifests whose `latest_commit` differs. -/
def classifyChanged (cur par : Manifest) : List String :=
  (cur.filter (fun te =>
    match lookupA par te.1 with
    | none => false
    | some pe => !(pe.latest_commit == te.2.latest_commit))).map Prod.fst

/-- Refs of the parent manifest absent from the current manifest. -/
def classifyRemoved (cur par : Manifest) : List String :=
  (par.filter (fun te => (lookupA cur te.1).isNone)).map Prod.fst

/-- `len(parent_hashes & current_hashes) == 0` over the window hash sets
(hashes are `commit.get("commit")`, hence `Option`s). -/
def noOverlapWindows (current_hashes parent_hashes : List (Option String)) : Bool :=
  current_hashes.all (fun h => !(parent_hashes.contains h))

/-- The per-commit prefix of the updated-ref commit listing: `"n"` for every
commit when the windows share no hash, otherwise `"N"` for a commit whose
hash is not in the parent window and `"_"` for one that is. -/
def commitMarker (no_overlap : Bool) (parent_hashes : List (Option String))
    (c : CommitDict) : String :=
  if no_overlap then "n"
  else if parent_hashes.contains c.commit then "_" else "N"

/-- Is a rendered prefix a "new commit" mark? -/
def isNewMark (s : String) : Bool := s == "n" || s == "N"

/-- Load the five-commit window of a named ref from its manifest entry's
file (`m[name].get("file")`; falsy file name, empty content and missing
file all give the empty window, as in the source). -/
def refWindow (files : List (String × List JsonLine)) (m : Manifest)
    (dirPath name : String) : List CommitDict :=
  match lookupA m name with
  | none => []
  | some e =>
    match e.file with
    | none => []
    | some f =>
      if f = "" then []
      else
        match readTreeFile files (dirPath ++ f) with
        | none => []
        | some ls => lastFiveNewestFirst (loadCommitLines ls)

/-- The shared `- **[name](…)** | [label](…) | [Tree](…) | [Commits](…)`
line of new/updated items, with the snapshot-mode link triple appended when
`SNAPSHOT_MODE` is on. -/
def refLinkLine (ctx : RenderCtx) (label ty repo_id name : String) : String :=
  let platform := cfgPlatform ctx.cfg repo_id
  let links := make_repo_links (cfgBase ctx.cfg repo_id) platform repo_id name none ty
  let md := "- **[" ++ name ++ "](" ++ links.ref ++ ")** | [" ++ label ++ "](" ++ links.ref
    ++ ") | [Tree](" ++ links.tree ++ ") | [Commits](" ++ links.commits ++ ")"
  if ctx.snapshot_mode then
    let snapshot_base := "https://github.com/" ++ ctx.snapshot_org ++ "/" ++ repo_id
    let slinks := make_repo_links snapshot_base platform repo_id name none ty
    md ++ " | [Snapshot " ++ label ++ "](" ++ slinks.ref ++ ") | [Tree](" ++ slinks.tree
      ++ ") | [Commits](" ++ slinks.commits ++ ")"
  else md

/-- One item of the New Tags listing. -/
def newTagItem (ctx : RenderCtx) (files : List (String × List JsonLine))
    (current_tags : Manifest) (repo_id tag : String) : String :=
  let md := refLinkLine ctx "Tag" "tag" repo_id tag ++ " | Recent commits 👇\n"
  match lookupA current_tags tag with
  | none => md
  | some e =>
    match e.file with
    | none => md
    | some f =>
      if f = "" then md
      else format_recent_commits ctx.cfg files md repo_id tag
        ("repos/" ++ repo_id ++ "/tags/" ++ f) ""

/-- One item of the Updated Tags listing, with the commit-window diff. -/
def updatedTagItem (ctx : RenderCtx) (curFiles parFiles : List (String × List JsonLine))
    (current_tags parent_tags : Manifest) (repo_id tag : String) : String :=
  let parent_commit_hash :=
    match lookupA parent_tags tag with
    | none => none
    | some e => e.latest_commit
  let md := refLinkLine ctx "Tag" "tag" repo_id tag
    ++ " | [Previous target](" ++ optStr parent_commit_hash ++ ") | Recent commits 👇\n"
  let parent_commits := refWindow parFiles parent_tags ("repos/" ++ repo_id ++ "/tags/") tag
  let parent_hashes := parent_commits.map CommitDict.commit
  let current_commits := refWindow curFiles current_tags ("repos/" ++ repo_id ++ "/tags/") tag
  let no_overlap := noOverlapWindows (current_commits.map CommitDict.commit) parent_hashes
  (current_commits.foldl
    (fun md2 c => md2 ++ format_commit ctx.cfg c repo_id (commitMarker no_overlap parent_hashes c))
    md) ++ "\n"

/-- One item of the Removed Tags listing (`parent_tags[tag].get("latest_commit",
"unknown")`; exporter-written manifests always carry the key, whose JSON-null
value renders as `"None"`). -/
def removedTagItem (parent_tags : Manifest) (tag : String) : String :=
  let parent_commit :=
    match lookupA parent_tags tag with
    | none => none
    | some e => e.latest_commit
  "- **" ++ tag ++ "** (was `" ++ optStr parent_commit ++ "`)\n"

/-- The whole Tag Changes block of one repo for one transition; empty when
the manifests do not differ. -/
def repoTagBlockCore (ctx : RenderCtx) (curFiles parFiles : List (String × List JsonLine))
    (current_tags parent_tags : Manifest) (repo_id : String) : String :=
  let new_tags := classifyNew current_tags parent_tags
  let changed_tags := classifyChanged current_tags parent_tags
  let removed_tags := classifyRemoved current_tags parent_tags
  if new_tags.isEmpty && changed_tags.isEmpty && removed_tags.isEmpty then ""
  else
    "### 🏷️ Tag Changes in **" ++ repo_id ++ "**\n\n"
    ++ (if new_tags.isEmpty then ""
        else "#### 🆕 New Tags\n\n"
          ++ String.join (new_tags.map (newTagItem ctx curFiles current_tags repo_id))
          ++ "\n" ++ "\n")
    ++ (if changed_tags.isEmpty then ""
        else "#### 🔄 Updated Tags\n\n"
          ++ String.join (changed_tags.map
              (updatedTagItem ctx curFiles parFiles current_tags parent_tags repo_id)))
    ++ (if removed_tags.isEmpty then ""
        else "#### 🗑️ Removed Tags\n\n"
          ++ String.join (removed_tags.map (removedTagItem parent_tags)) ++ "\n")

/-- One item of the New Branches listing. -/
def newBranchItem (ctx : RenderCtx) (files : List (String × List JsonLine))
    (current_branches : Manifest) (repo_id branch : String) : String :=
  let md := refLinkLine ctx "Branch" "branch" repo_id branch ++ " | Recent commits 👇\n"
  match lookupA current_branches branch with
  | none => md
  | some e =>
    match e.file with
    | none => md
    | some f =>
      if f = "" then md
      else format_recent_commits ctx.cfg files md repo_id branch
        ("repos/" ++ repo_id ++ "/branches/" ++ f) ""

/-- One item of the Updated Branches listing. -/
def updatedBranchItem (ctx : RenderCtx) (curFiles parFiles : List (String × List JsonLine))
    (current_branches parent_branches : Manifest) (repo_id branch : String) : String :=
  let parent_commit_hash :=
    match lookupA parent_branches branch with
    | none => none
    | some e => e.latest_commit
  let md := refLinkLine ctx "Branch" "branch" repo_id branch
    ++ " | [Previous target](" ++ optStr parent_commit_hash ++ ") | Recent commits 👇\n"
  let parent_commits := refWindow parFiles parent_branches
    ("repos/" ++ repo_id ++ "/branches/") branch
  let parent_hashes := parent_commits.map CommitDict.commit
  let current_commits := refWindow curFiles current_branches
    ("repos/" ++ repo_id ++ "/branches/") branch
  let no_overlap := noOverlapWindows (current_commits.map CommitDict.commit) parent_hashes
  (current_commits.foldl
    (fun md2 c => md2 ++ format_commit ctx.cfg c repo_id (commitMarker no_overlap parent_hashes c))
    md) ++ "\n"

/-- One item of the Removed Branches listing. -/
def removedBranchItem (parent_branches : Manifest) (branch : String) : String :=
  let parent_commit :=
    match lookupA parent_branches branch with
    | none => none
    | some e => e.latest_commit
  "- **" ++ branch ++ "** (was `" ++ optStr parent_commit ++ "`)\n"

/-- The whole Branch Changes block of one repo for one transition (branch
name lists are sorted before display, unlike tags). -/
def repoBranchBlockCore (ctx : RenderCtx) (curFiles parFiles : List (String × List JsonLine))
    (current_branches parent_branches : Manifest) (repo_id : String) : String :=
  let new_branches := sortStrings (classifyNew current_branches parent_branches)
  let changed_branches := sortStrings (classifyChanged current_branches parent_branches)
  let removed_branches := sortStrings (classifyRemoved current_branches parent_branches)
  if new_branches.isEmpty && changed_branches.isEmpty && removed_branches.isEmpty then ""
  else
    "### 🌿 Branch Changes in **" ++ repo_id ++ "**\n\n"
    ++ (if new_branches.isEmpty then ""
        else "#### 🆕 New Branches\n\n"
          ++ String.join (new_branches.map (newBranchItem ctx curFiles current_branches repo_id))
          ++ "\n")
    ++ (if changed_branches.isEmpty then ""
        else "#### 🔄 Updated Branches\n\n"
          ++ String.join (changed_branches.map
              (updatedBranchItem ctx curFiles parFiles current_branches parent_branches repo_id)))
    ++ (if removed_branches.isEmpty then ""
        else "#### 🗑️ Removed Branches\n\n"
          ++ String.join (removed_branches.map (removedBranchItem parent_branches)) ++ "\n")

/-- The Tag Changes block of one repo, read off the snapshot trees. -/
def repoTagBlock (ctx : RenderCtx) (cur par : SnapTree) (repo_id : String) : String :=
  repoTagBlockCore ctx cur.files par.files (tagManifestAt cur repo_id)
    (tagManifestAt par repo_id) repo_id

/-- The Branch Changes block of one repo, read off the snapshot trees. -/
def repoBranchBlock (ctx : RenderCtx) (cur par : SnapTree) (repo_id : String) : String :=
  repoBranchBlockCore ctx cur.files par.files (branchManifestAt cur repo_id)
    (branchManifestAt par repo_id) repo_id

/-- All per-repo Tag Changes blocks: `for repo_id in sorted(set(current_repos))`. -/
def tagsBlocks (ctx : RenderCtx) (cur par : SnapTree) : String :=
  String.join ((sortedSet (currentRepoList cur)).map (repoTagBlock ctx cur par))

/-- All per-repo Branch Changes blocks, over the same repo list. -/
def branchesBlocks (ctx : RenderCtx) (cur par : SnapTree) : String :=
  String.join ((sortedSet (currentRepoList cur)).map (repoBranchBlock ctx cur par))

/-- The Repository Changes block (repo-set delta). -/
def repoSetBlock (cur par : SnapTree) : String :=
  let new_repos := sortedDiff (currentRepoList cur) (currentRepoList par)
  let removed_repos := sortedDiff (currentRepoList par) (currentRepoList cur)
  if new_repos.isEmpty && removed_repos.isEmpty then ""
  else
    "### 🧭 Repository Changes\n\n"
    ++ (if new_repos.isEmpty then ""
        else "#### 🆕 New Repositories Detected\n\n"
          ++ String.join (new_repos.map (fun r => "- **" ++ r ++ "**\n")) ++ "\n")
    ++ (if removed_repos.isEmpty then ""
        else "#### 🗑️ Repositories Removed\n\n"
          ++ String.join (removed_repos.map (fun r => "- **" ++ r ++ "**\n")) ++ "\n")

/-- The Global Tags Changes block (`all-tags.txt` delta). -/
def globalTagsBlock (cur par : SnapTree) : String :=
  let new_global_tags := sortedDiff (globalTagList cur) (globalTagList par)
  let removed_global_tags := sortedDiff (globalTagList par) (globalTagList cur)
  if new_global_tags.isEmpty && removed_global_tags.isEmpty then ""
  else
    "### 🏷️ Global Tags Changes\n\n"
    ++ (if new_global_tags.isEmpty then ""
        else "#### 🆕 New Global Tags\n\n"
          ++ String.join (new_global_tags.map (fun t2 => "- **" ++ t2 ++ "**\n")) ++ "\n")
    ++ (if removed_global_tags.isEmpty then ""
        else "#### 🗑️ Removed Global Tags\n\n"
          ++ String.join (removed_global_tags.map (fun t2 => "- **" ++ t2 ++ "**\n")) ++ "\n")

/-- One transition's section: snapshot header, then — in this fixed order —
repository-set changes, global-tag changes, per-repo tag changes, per-repo
branch changes. -/
def snapSection (ctx : RenderCtx) (commit_time : String) (cur par : SnapTree) : String :=
  "## Snapshot " ++ commit_time ++ "\n\n"
  ++ repoSetBlock cur par
  ++ globalTagsBlock cur par
  ++ tagsBlocks ctx cur par
  ++ branchesBlocks ctx cur par

/-- The explicit placeholder for the parentless first ledger entry. -/
def rootMarker (commit_time : String) : String :=
  "## Very first commit (" ++ commit_time ++ ")\n\nIgnored on purpose.\n\n"

/-- The snapshot loop of `main` over the newest-first ledger entries (the
tracking branch is linear, so a commit's only parent is its list
neighbor): a section per transition, and the root marker for the
parentless oldest entry. -/
def snapshotBlocks (ctx : RenderCtx) : List (String × SnapTree) → String
  | [] => ""
  | (t, cur) :: rest =>
    match rest with
    | [] => rootMarker t
    | (_, par) :: _ => snapSection ctx t cur par ++ snapshotBlocks ctx rest

/-- One authored event. -/
structure Event where
  title : String
  date : String
  description : String
deriving DecidableEq

/-- `events.sort(key=lambda e: e["date"], reverse=True)`: stable sort by
date descending. -/
def sortEventsDesc (evs : List Event) : List Event :=
  List.insertionSort (fun a b => b.date ≤ a.date) evs

/-- One rendered event. -/
def eventLine (ev : Event) : String :=
  "### " ++ ev.title ++ " (" ++ ev.date ++ ")\n\n" ++ ev.description ++ "\n\n"

/-- The whole `changes_timeline.md` document: title, all events (sorted by
date descending), then the snapshot sections newest first, ending in the
root marker.  `ledger` is the tracking ledger oldest first, as
`read_tracking_commits` returns it. -/
def renderTimeline (ctx : RenderCtx) (events : List Event)
    (ledger : List (String × SnapTree)) : String :=
  "# Zimbra Tracker – Changes Timeline\n\n"
  ++ "## Events\n\n"
  ++ String.join ((sortEventsDesc events).map eventLine)
  ++ snapshotBlocks ctx ledger.reverse

/-- Replace one repo's tags manifest read outcome. -/
def setTagsManifest (t : SnapTree) (repo_id : String) (v : RawRead Manifest) : SnapTree :=
  { t with tagsManifests := setA t.tagsManifests repo_id v }

/-- Replace one repo's branches manifest read outcome. -/
def setBranchesManifest (t : SnapTree) (repo_id : String) (v : RawRead Manifest) : SnapTree :=
  { t with branchesManifests := setA t.branchesManifests repo_id v }

/-- Replace the repo-set registry read outcome. -/
def setAllRepos (t : SnapTree) (v : RawRead (List String)) : SnapTree :=
  { t with allRepos := v }

instance : IsTotal Event (fun a b => b.date ≤ a.date) :=
  ⟨fun a b => le_total b.date a.date⟩

instance : IsTrans Event (fun a b => b.date ≤ a.date) :=
  ⟨fun a b c h1 h2 => le_trans h2 h1⟩

/-- A rendering context with no repo config and snapshot mode off. -/
def emptyCtx : RenderCtx := { cfg := [], snapshot_mode := false, snapshot_org := "" }

/-- Parent snapshot of the C2 counterexample: repo set `["a"]`, no
manifests. -/
def c2TreeParent : SnapTree :=
  { allRepos := .ok ["a"], allTagsLines := [], tagsManifests := [],
    branchesManifests := [], files := [] }

/-- Current snapshot of the C2 counterexample: repo `"b"` is newly added and
carries one tag `v1`. -/
def c2TreeCurrent : SnapTree :=
  { allRepos := .ok ["a", "b"], allTagsLines := [],
    tagsManifests := [("b", .ok [("v1", { file := some "v1.txt", latest_commit := some "c1" })])],
    branchesManifests := [], files := [] }

end GenerateChanges

/-! ## Theorems -/

namespace TrackRefs

theorem breakAtSep_append (sep : Char) (a b : List Char) (h : sep ∉ a) :
    breakAtSep sep (a ++ sep :: b) = some (a, b) := by
  induction a with
  | nil => simp [breakAtSep]
  | cons c a2 ih =>
    have hc : ¬ c = sep := fun e => h (by simp [e])
    have h2 : sep ∉ a2 := fun e => h (by simp [e])
    simp [breakAtSep, hc, ih h2]

theorem splitSepMax_succ (sep : Char) (k : Nat) (a b : List Char) (h : sep ∉ a) :
    splitSepMax sep (k + 1) (a ++ sep :: b) = a :: splitSepMax sep k b := by
  rw [splitSepMax, breakAtSep_append sep a b h]

theorem splitSepMax_mkGitLine (p : GitLogParts)
    (hh : usSep ∉ p.hash) (ht : usSep ∉ p.ts) (ha : usSep ∉ p.author) (hc : usSep ∉ p.committer) :
    splitSepMax usSep 4 (mkGitLine p) = [p.hash, p.ts, p.author, p.committer, p.message] := by
  show splitSepMax usSep (3 + 1) _ = _
  rw [mkGitLine, splitSepMax_succ usSep 3 _ _ hh]
  rw [show (3 : Nat) = 2 + 1 from rfl, splitSepMax_succ usSep 2 _ _ ht]
  rw [show (2 : Nat) = 1 + 1 from rfl, splitSepMax_succ usSep 1 _ _ ha]
  rw [show (1 : Nat) = 0 + 1 from rfl, splitSepMax_succ usSep 0 _ _ hc]
  rfl

theorem pyIntDigits_good (l : List Char) (h1 : l ≠ []) (h2 : ∀ c ∈ l, c.isDigit = true) :
    pyIntDigits l = some (l.foldl (fun n c => n * 10 + (c.toNat - 48)) 0) := by
  have he : l.isEmpty = false := by cases l with
    | nil => exact absurd rfl h1
    | cons a t => rfl
  have ha : l.any (fun c => !c.isDigit) = false := by
    rw [Bool.eq_false_iff]
    intro hx
    rw [List.any_eq_true] at hx
    obtain ⟨c, hc, hb⟩ := hx
    simp [h2 c hc] at hb
  unfold pyIntDigits
  rw [if_neg (by simp [he, ha])]

theorem writeRecords_good : ∀ ps : List GitLogParts, (∀ p ∈ ps, GoodParts p) →
    writeRecords (ps.map mkGitLine) = some (ps.map recordOfParts) := by
  intro ps h
  induction ps with
  | nil => rfl
  | cons p ps2 ih =>
    obtain ⟨g1, g2, g3, g4, g5, g6⟩ := h p (by simp)
    have hh : usSep ∉ p.hash := fun hm => absurd (g2 usSep hm) (by decide)
    have ht : usSep ∉ p.ts := fun hm => absurd (g4 usSep hm) (by decide)
    have hsplit := splitSepMax_mkGitLine p hh ht g5 g6
    have hint := pyIntDigits_good p.ts g3 g4
    have ihe := ih (fun q hq => h q (by simp [hq]))
    simp only [List.map_cons, writeRecords, hsplit, hint, ihe, recordOfParts]
    rfl

/-- Claim C1, evaluation at the failing input: for a ref whose single
(newest) commit has an empty subject, the raw git log line is well formed
(five fields, four separators, parsing to five parts), but `run()`'s
`stdout.strip()` removes the trailing `\x1f` (Python whitespace), so the
line `export_ref_commits` sees has only four parts and is skipped — no
CommitRecord is written to the log — while `commit_lines[-1].split()[0]`
still records the commit's hash as `latest_commit`.  The last conjunct
shows the un-stripped line would have been written, with the invariant
holding, so the spec's invariant is the evident intent and the strip a
slip. -/
theorem c1_code_bug_eval :
    GoodParts emptySubjectCommit
    ∧ splitSepMax usSep 4 (mkGitLine emptySubjectCommit)
        = [['a', '1'], ['7'], ['J'], ['K'], []]
    ∧ runCommitLines (gitLogStdout [emptySubjectCommit])
        = [['a', '1', usSep, '7', usSep, 'J', usSep, 'K']]
    ∧ export_ref_commits (runCommitLines (gitLogStdout [emptySubjectCommit]))
        = some ([], some ['a', '1'])
    ∧ export_ref_commits [mkGitLine emptySubjectCommit]
        = some ([recordOfParts emptySubjectCommit], some ['a', '1']) := by
  decide

theorem natDecimal_no_newline : ∀ n, '\n' ∉ natDecimal n := by
  intro n
  induction n using Nat.strong_induction_on with
  | _ n ih =>
    have hd : ∀ k, k < 10 → ¬ ('\n' = Char.ofNat (48 + k)) := by decide
    rw [natDecimal]
    by_cases h : n < 10
    · rw [dif_pos h]
      simp only [List.mem_singleton]
      exact hd n h
    · rw [dif_neg h]
      intro hm
      rcases List.mem_append.mp hm with h1 | h2
      · exact ih (n / 10) (Nat.div_lt_self (by omega) (by omega)) h1
      · have : '\n' = Char.ofNat (48 + n % 10) := by simpa using h2
        exact hd (n % 10) (Nat.mod_lt _ (by omega)) this

theorem jsonEscapeChar_no_newline (c : Char) : '\n' ∉ jsonEscapeChar c := by
  have hx : ∀ k, k < 16 → ¬ ('\n' = hexLowerCh k) := by decide
  unfold jsonEscapeChar
  split_ifs with h1 h2 h3 h4 h5 h6 h7 h8
  · decide
  · decide
  · decide
  · decide
  · decide
  · decide
  · decide
  · intro hm
    simp only [List.mem_cons] at hm
    rcases hm with h | h | h | h | h | h | h
    · exact absurd h (by decide)
    · exact absurd h (by decide)
    · exact absurd h (by decide)
    · exact absurd h (by decide)
    · exact hx _ (by omega) h
    · exact hx _ (Nat.mod_lt _ (by omega)) h
    · exact absurd h (List.not_mem_nil _)
  · intro hm
    simp only [List.mem_singleton] at hm
    exact h3 hm.symm

theorem jsonStr_no_newline (l : List Char) : '\n' ∉ jsonStr l := by
  unfold jsonStr
  intro hm
  rcases List.mem_cons.mp hm with h | hm2
  · exact absurd h (by decide)
  rcases List.mem_append.mp hm2 with h | h
  · rcases List.mem_flatten.mp h with ⟨s, hsm, hns⟩
    rcases List.mem_map.mp hsm with ⟨c, _, rfl⟩
    exact jsonEscapeChar_no_newline c hns
  · exact absurd h (by decide)

theorem dumpsCommit_no_newline (r : CommitJson) : '\n' ∉ dumpsCommit r := by
  intro hm
  unfold dumpsCommit at hm
  simp only [List.mem_append] at hm
  rcases hm with ((((((((((h | h) | h) | h) | h) | h) | h) | h) | h) | h) | h) | h
  · exact absurd h (by decide)
  · exact absurd h (by decide)
  · exact jsonStr_no_newline _ h
  · exact absurd h (by decide)
  · exact natDecimal_no_newline _ h
  · exact absurd h (by decide)
  · exact jsonStr_no_newline _ h
  · exact absurd h (by decide)
  · exact jsonStr_no_newline _ h
  · exact absurd h (by decide)
  · exact jsonStr_no_newline _ h
  · exact absurd h (by decide)

/-- Claim C8: given well-formed git log output lines (oldest first), the
commit log file written by the exporter is newline-delimited JSON — the
concatenation, in input (oldest-first) order, of one serialized commit
object plus `"\n"` per input line; no serialized object contains a raw
newline (so the file has exactly one object per line); and each written
object carries exactly the fields `commit`, `timestamp` (the parsed integer
unix seconds), `author`, `committer`, `message`. -/
theorem c8_commit_log_format (ps : List GitLogParts) (h : ∀ p ∈ ps, GoodParts p) :
    writeRecords (ps.map mkGitLine) = some (ps.map recordOfParts)
    ∧ writtenFile (ps.map mkGitLine)
        = some (((ps.map recordOfParts).map (fun r => dumpsCommit r ++ ['\n'])).flatten)
    ∧ (∀ r : CommitJson, '\n' ∉ dumpsCommit r)
    ∧ (∀ p ∈ ps, ∃ n, pyIntDigits p.ts = some n
        ∧ recordOfParts p
            = ⟨p.hash, n, orUnknown p.author, orUnknown p.committer, p.message⟩) := by
  have wr := writeRecords_good ps h
  refine ⟨wr, ?_, dumpsCommit_no_newline, ?_⟩
  · unfold writtenFile
    rw [wr]
  · intro p hp
    obtain ⟨g1, g2, g3, g4, g5, g6⟩ := h p hp
    have hint := pyIntDigits_good p.ts g3 g4
    refine ⟨_, hint, ?_⟩
    unfold recordOfParts
    rw [hint]
    rfl

/-- Witness for `c8_commit_log_format` at a concrete one-commit log. -/
theorem c8_commit_log_format_witness :
    (∀ p ∈ [GitLogParts.mk ['c', '3'] ['7'] ['A'] ['B'] ['s']], GoodParts p)
    ∧ (writeRecords ([GitLogParts.mk ['c', '3'] ['7'] ['A'] ['B'] ['s']].map mkGitLine)
        = some ([GitLogParts.mk ['c', '3'] ['7'] ['A'] ['B'] ['s']].map recordOfParts)
      ∧ writtenFile ([GitLogParts.mk ['c', '3'] ['7'] ['A'] ['B'] ['s']].map mkGitLine)
          = some ((([GitLogParts.mk ['c', '3'] ['7'] ['A'] ['B'] ['s']].map recordOfParts).map
              (fun r => dumpsCommit r ++ ['\n'])).flatten)
      ∧ (∀ r : CommitJson, '\n' ∉ dumpsCommit r)
      ∧ (∀ p ∈ [GitLogParts.mk ['c', '3'] ['7'] ['A'] ['B'] ['s']],
          ∃ n, pyIntDigits p.ts = some n
          ∧ recordOfParts p
              = ⟨p.hash, n, orUnknown p.author, orUnknown p.committer, p.message⟩)) :=
  ⟨by decide, c8_commit_log_format [GitLogParts.mk ['c', '3'] ['7'] ['A'] ['B'] ['s']] (by decide)⟩

theorem lookupA_setA_self {α : Type} (l : List (String × α)) (k : String) (v : α) :
    lookupA (setA l k v) k = some v := by
  induction l with
  | nil => simp [setA, lookupA]
  | cons kv rest ih =>
    by_cases h : kv.1 = k
    · simp [setA, h, lookupA]
    · simp [setA, h, lookupA, ih]

theorem lookupA_writeFiles_not_mem {head : FileTree} {ws : List (String × String)} {p : String}
    (h : p ∉ ws.map Prod.fst) : lookupA (writeFiles head ws) p = lookupA head p := by
  induction ws generalizing head with
  | nil => rfl
  | cons w rest ih =>
    have h1 : w.1 ≠ p := fun e => h (by simp [e])
    have h2 : p ∉ rest.map Prod.fst := fun e => h (by simp [e])
    have hl : lookupA (setA head w.1 w.2) p = lookupA head p := by
      clear h ih h2
      induction head with
      | nil => simp [setA, lookupA, h1]
      | cons kv t iht =>
        by_cases hk : kv.1 = w.1
        · simp [setA, hk, lookupA, h1, hk ▸ h1]
        · simp only [setA, hk, if_false, lookupA]
          by_cases hp : kv.1 = p
          · simp [hp]
          · simp [hp, iht]
    show lookupA (writeFiles (setA head w.1 w.2) rest) p = lookupA head p
    rw [ih h2, hl]

theorem lookupA_writeFiles_mem {head : FileTree} {ws : List (String × String)}
    {p : String} {c : String} (h : (p, c) ∈ ws) (hn : (ws.map Prod.fst).Nodup) :
    lookupA (writeFiles head ws) p = some c := by
  induction ws generalizing head with
  | nil => simp at h
  | cons w rest ih =>
    rcases List.mem_cons.mp h with he | hm
    · have hnot : p ∉ rest.map Prod.fst := by
        rw [List.map_cons, List.nodup_cons] at hn
        rw [← he] at hn
        exact hn.1
      show lookupA (writeFiles (setA head w.1 w.2) rest) p = some c
      rw [lookupA_writeFiles_not_mem hnot, ← he]
      exact lookupA_setA_self head p c
    · have hn2 : (rest.map Prod.fst).Nodup := by
        rw [List.map_cons, List.nodup_cons] at hn
        exact hn.2
      exact ih hm hn2

theorem getLastD_append_single {α : Type} (l : List α) (x d : α) :
    (l ++ [x]).getLastD d = x := by
  induction l with
  | nil => rfl
  | cons a t ih => simp [List.getLastD, ih]

/-- Claim C5: an export-and-append cycle whose recomputed files are
byte-identical to the previous ledger entry creates no new ledger entry;
any cycle appends at most one entry; and running the cycle twice over the
same source state (hence the same recomputed file writes `ws`, with one
write per path) commits at most on the first run — the second run is a
no-op on the ledger. -/
theorem c5_append_idempotent (ledger : List FileTree) (ws : List (String × String))
    (hn : (ws.map Prod.fst).Nodup) :
    (has_changes (ledger.getLastD []) ws = false → runTrackingCycle ledger ws = ledger)
    ∧ (runTrackingCycle ledger ws).length ≤ ledger.length + 1
    ∧ runTrackingCycle (runTrackingCycle ledger ws) ws = runTrackingCycle ledger ws := by
  refine ⟨?_, ?_, ?_⟩
  · intro h
    unfold runTrackingCycle
    rw [h]
    simp
  · unfold runTrackingCycle
    split
    · simp
    · omega
  · by_cases h : has_changes (ledger.getLastD []) ws = true
    · have hrun : runTrackingCycle ledger ws
          = ledger ++ [writeFiles (ledger.getLastD []) ws] := by
        unfold runTrackingCycle
        rw [h]
        simp
      have hlast : (ledger ++ [writeFiles (ledger.getLastD []) ws]).getLastD []
          = writeFiles (ledger.getLastD []) ws := getLastD_append_single _ _ _
      have hnc : has_changes (writeFiles (ledger.getLastD []) ws) ws = false := by
        unfold has_changes
        rw [Bool.eq_false_iff]
        intro hx
        rw [List.any_eq_true] at hx
        obtain ⟨pc, hpc, hb⟩ := hx
        rw [lookupA_writeFiles_mem (by simpa using hpc) hn] at hb
        simp at hb
      rw [hrun]
      unfold runTrackingCycle
      rw [hlast, hnc]
      simp
    · have h2 : has_changes (ledger.getLastD []) ws = false := by
        simpa using h
      have hrun : runTrackingCycle ledger ws = ledger := by
        unfold runTrackingCycle
        rw [h2]
        simp
      rw [hrun, hrun]

/-- Witness for `c5_append_idempotent` at a concrete empty ledger and one
written file. -/
theorem c5_append_idempotent_witness :
    (([("repos/a/tags-manifest.json", "{}")].map Prod.fst).Nodup : Prop)
    ∧ ((has_changes (([] : List FileTree).getLastD []) [("repos/a/tags-manifest.json", "{}")]
          = false → runTrackingCycle [] [("repos/a/tags-manifest.json", "{}")] = [])
      ∧ (runTrackingCycle [] [("repos/a/tags-manifest.json", "{}")]).length
          ≤ ([] : List FileTree).length + 1
      ∧ runTrackingCycle (runTrackingCycle [] [("repos/a/tags-manifest.json", "{}")])
            [("repos/a/tags-manifest.json", "{}")]
          = runTrackingCycle [] [("repos/a/tags-manifest.json", "{}")]) :=
  ⟨by decide, c5_append_idempotent [] [("repos/a/tags-manifest.json", "{}")] (by decide)⟩

end TrackRefs

namespace RefnameUtils

set_option maxRecDepth 8192

theorem quoteSafe_ne_37 {b : Nat} (h : quoteSafe b = true) : b ≠ 37 := by
  intro hb; subst hb; exact absurd h (by decide)

theorem pyUnquote_cons_ne37 (c : Nat) (h : c ≠ 37) :
    ∀ l : ByteStr, pyUnquote (c :: l) = c :: pyUnquote l := by
  intro l
  match l with
  | [] => rfl
  | [a] => rfl
  | a :: b :: l2 => simp [pyUnquote, h]

theorem nibble_ok : ∀ n, n < 16 →
    isHexByte (hexDigitUpper n) = true ∧ hexVal (hexDigitUpper n) = n := by decide

theorem pyUnquote_pyQuote : ∀ r : ByteStr, (∀ b ∈ r, b < 256) →
    pyUnquote (pyQuote r) = r := by
  intro r h
  induction r with
  | nil => rfl
  | cons b t ih =>
    have hb : b < 256 := h b (by simp)
    have ht : ∀ x ∈ t, x < 256 := fun x hx => h x (by simp [hx])
    have hq : pyQuote (b :: t) = quoteByte b ++ pyQuote t := by simp [pyQuote]
    rw [hq]
    by_cases hs : quoteSafe b = true
    · have : quoteByte b = [b] := by simp [quoteByte, hs]
      rw [this, List.singleton_append, pyUnquote_cons_ne37 b (quoteSafe_ne_37 hs), ih ht]
    · have hs2 : quoteSafe b = false := by simpa using hs
      have : quoteByte b = [37, hexDigitUpper (b / 16), hexDigitUpper (b % 16)] := by
        simp [quoteByte, hs2]
      rw [this]
      have h1 : b / 16 < 16 := by omega
      have h2 : b % 16 < 16 := by omega
      have n1 := nibble_ok _ h1
      have n2 := nibble_ok _ h2
      show pyUnquote (37 :: hexDigitUpper (b / 16) :: hexDigitUpper (b % 16) :: pyQuote t)
        = b :: t
      simp only [pyUnquote, n1.1, n2.1, n1.2, n2.2, ih ht, beq_self_eq_true, Bool.and_self,
        Bool.true_and, if_true]
      have hdm : b / 16 * 16 + b % 16 = b := by omega
      rw [hdm]

/-- Claim C6, counterexample: the tilde byte (`~`, 126) lies outside the
claim's character class `[A-Za-z0-9._-]`, yet `safe_refname_to_filename "~"`
is `"~.txt"` — the tilde is not percent-encoded (CPython's `quote` never
quotes the RFC 3986 unreserved characters, which include `~`).  Hence the
claim's encoding-scope sentence is false. -/
theorem c6_counterexample :
    claimSafeClass 126 = false
    ∧ safe_refname_to_filename [126] = [126, 46, 116, 120, 116]
    ∧ ¬ (∀ b, b < 256 → claimSafeClass b = false →
          quoteByte b = [37, hexDigitUpper (b / 16), hexDigitUpper (b % 16)]) := by
  decide

/-- Claim C6, amended: for every ref name (as UTF-8 bytes),
`filename_to_refname (safe_refname_to_filename r) = r`; the encoding is
injective, appends `".txt"`, and percent-encodes every byte outside the
RFC 3986 unreserved class `[A-Za-z0-9._~-]` (the original claim's class
`[A-Za-z0-9._-]` wrongly omitted `~`); the unquoted bytes are exactly that
unreserved class. -/
theorem c6_roundtrip_amended (r r2 : ByteStr)
    (h : ∀ b ∈ r, b < 256) (h2 : ∀ b ∈ r2, b < 256) :
    filename_to_refname (safe_refname_to_filename r) = r
    ∧ (safe_refname_to_filename r = safe_refname_to_filename r2 → r = r2)
    ∧ (∀ b ∈ r, unreservedClass b = false →
        quoteByte b = [37, hexDigitUpper (b / 16), hexDigitUpper (b % 16)])
    ∧ (∀ b, b < 256 → quoteSafe b = unreservedClass b) := by
  have hclass : ∀ b, b < 256 → quoteSafe b = unreservedClass b := by decide
  have hrt : ∀ s : ByteStr, (∀ b ∈ s, b < 256) →
      filename_to_refname (safe_refname_to_filename s) = s := by
    intro s hs
    unfold filename_to_refname safe_refname_to_filename
    rw [if_pos (List.suffix_append _ _)]
    have hlen : (pyQuote s ++ txtSuffix).length - 4 = (pyQuote s).length := by
      simp [txtSuffix]
    rw [hlen, List.take_left]
    exact pyUnquote_pyQuote s hs
  refine ⟨hrt r h, ?_, ?_, hclass⟩
  · intro he
    have := hrt r h
    rw [he, hrt r2 h2] at this
    exact this.symm
  · intro b hb hu
    have : quoteSafe b = false := by rw [hclass b (h b hb)]; exact hu
    simp [quoteByte, this]

/-- Witness for `c6_roundtrip_amended` at the concrete ref names
`"feature/x"` and `"hi"` (as bytes). -/
theorem c6_roundtrip_amended_witness :
    (∀ b ∈ [102, 101, 97, 116, 117, 114, 101, 47, 120], b < 256)
    ∧ (filename_to_refname
        (safe_refname_to_filename [102, 101, 97, 116, 117, 114, 101, 47, 120])
          = [102, 101, 97, 116, 117, 114, 101, 47, 120]
      ∧ (safe_refname_to_filename [102, 101, 97, 116, 117, 114, 101, 47, 120]
            = safe_refname_to_filename [104, 105]
          → [102, 101, 97, 116, 117, 114, 101, 47, 120] = [104, 105])
      ∧ (∀ b ∈ [102, 101, 97, 116, 117, 114, 101, 47, 120], unreservedClass b = false →
          quoteByte b = [37, hexDigitUpper (b / 16), hexDigitUpper (b % 16)])
      ∧ (∀ b, b < 256 → quoteSafe b = unreservedClass b)) :=
  ⟨by decide,
   c6_roundtrip_amended [102, 101, 97, 116, 117, 114, 101, 47, 120] [104, 105]
     (by decide) (by decide)⟩

end RefnameUtils

namespace GenerateChanges

set_option maxRecDepth 16384

/-- Claim C9: the link resolver is total by construction (a Lean `def`
returning a complete four-field bundle for every input), and for every
platform string other than `"github"` and `"gitlab"` it returns the default
fallback URL shape — for both ref kinds and regardless of the commit hash —
rather than failing or omitting the entry. -/
theorem c9_link_resolver_total (base_url platform repo_id ref_name : String)
    (commit_hash : Option String) (ty : String)
    (h1 : platform ≠ "github") (h2 : platform ≠ "gitlab") :
    make_repo_links base_url platform repo_id ref_name commit_hash ty
      = specFallbackLinks base_url ref_name commit_hash := by
  unfold make_repo_links specFallbackLinks
  rw [if_neg h1, if_neg h2]

/-- Witness for `c9_link_resolver_total` at the unsupported platform
`"bitbucket"`. -/
theorem c9_link_resolver_total_witness :
    ("bitbucket" ≠ "github" ∧ "bitbucket" ≠ "gitlab")
    ∧ make_repo_links "https://x.example/r" "bitbucket" "r" "v1" (some "h") "branch"
        = specFallbackLinks "https://x.example/r" "v1" (some "h") :=
  ⟨⟨by decide, by decide⟩,
   c9_link_resolver_total "https://x.example/r" "bitbucket" "r" "v1" (some "h") "branch"
     (by decide) (by decide)⟩

theorem pySlice_pySlice (s : String) (n : Nat) : pySlice (pySlice s n) n = pySlice s n := by
  unfold pySlice
  simp [List.take_take]

/-- Claim C10, counterexample: a commit dictionary with every key missing
except a present out-of-range timestamp (unix seconds `253402300800`, which
is 10000-01-01 00:00:00 UTC) makes `datetime.utcfromtimestamp` raise
`ValueError: year 10000 is out of range`, so `format_commit` raises rather
than returning a markdown line — "for every commit dictionary … without
raising" is false as stated. -/
theorem c10_counterexample :
    utcTimestampInRange 253402300800 = false
    ∧ pyUtcFromTimestamp 253402300800 = none
    ∧ format_commit_py []
        { commit := none, timestamp := some 253402300800, author := none,
          committer := none, message := none } "r" "" = none := by
  decide

/-- Claim C10, amended: for every commit dictionary, possibly missing any
key, whose timestamp value (or its default 0 when the key is missing) lies
inside `datetime`'s supported range of years 1–9999, `format_commit`
returns a markdown line without raising; the rendering equals that of the
normalization in which each missing key is replaced by its default
(`"unknown"` hash, truncated to 12 characters; `"_(no message)_"`;
`"Unknown"` author and committer; timestamp 0) and a present hash is
truncated to its first 12 characters; the all-keys-missing dictionary
renders like the explicit-defaults dictionary, concretely producing the
1970-01-01 line with every default substituted.  (Outside that range,
`format_commit` propagates the `ValueError` — see `c10_counterexample`.) -/
theorem c10_format_commit_defaults_inrange (cfg : RepoConfig) (c : CommitDict)
    (repo_id pfx : String) (h : utcTimestampInRange (c.timestamp.getD 0) = true) :
    format_commit_py cfg c repo_id pfx = some (format_commit cfg c repo_id pfx)
    ∧ format_commit cfg c repo_id pfx = format_commit cfg (claimNormalizedCommit c) repo_id pfx
    ∧ format_commit cfg emptyCommitDict repo_id pfx
        = format_commit cfg
            { commit := some "unknown", timestamp := some 0, author := some "Unknown",
              committer := some "Unknown", message := some "_(no message)_" } repo_id pfx
    ∧ format_commit [] emptyCommitDict "r" ""
        = "    - 1970-01-01 00:00:00 UTC | _ | **[unknown](https://github.com/Zimbra/r/commit/unknown)** [_(no message)_](https://github.com/Zimbra/r/commit/unknown) | authored by *Unknown* | committed by *Unknown*\n" := by
  refine ⟨?_, ?_, rfl, by decide⟩
  · simp only [format_commit_py, format_commit, pyUtcFromTimestamp, h, if_true]
  · simp only [format_commit, claimNormalizedCommit, Option.getD_some, pySlice_pySlice]

/-- Witness for `c10_format_commit_defaults_inrange` at the all-keys-missing
dictionary (the missing timestamp defaults to 0, inside the supported
range). -/
theorem c10_format_commit_defaults_inrange_witness :
    utcTimestampInRange (emptyCommitDict.timestamp.getD 0) = true
    ∧ (format_commit_py [] emptyCommitDict "r" ""
        = some (format_commit [] emptyCommitDict "r" "")
    ∧ format_commit [] emptyCommitDict "r" ""
        = format_commit [] (claimNormalizedCommit emptyCommitDict) "r" ""
    ∧ format_commit [] emptyCommitDict "r" ""
        = format_commit []
            { commit := some "unknown", timestamp := some 0, author := some "Unknown",
              committer := some "Unknown", message := some "_(no message)_" } "r" ""
    ∧ format_commit [] emptyCommitDict "r" ""
        = "    - 1970-01-01 00:00:00 UTC | _ | **[unknown](https://github.com/Zimbra/r/commit/unknown)** [_(no message)_](https://github.com/Zimbra/r/commit/unknown) | authored by *Unknown* | committed by *Unknown*\n") :=
  ⟨by decide, c10_format_commit_defaults_inrange [] emptyCommitDict "r" "" (by decide)⟩

theorem noOverlapWindows_iff (hc hp : List (Option String)) :
    noOverlapWindows hc hp = true ↔ ∀ h ∈ hc, h ∉ hp := by
  simp [noOverlapWindows, List.all_eq_true]

/-- Claim C3: over the five-commit windows (newest first) of the current and
parent commit logs of a changed ref, the engine's overlap test is exactly
hash-set disjointness; when the windows are disjoint every commit of the
current window is marked new (`"n"`), and otherwise a commit is marked new
(`"N"`) exactly when its hash is absent from the parent window's hash set,
and marked unchanged (`"_"`) exactly when it is present. -/
theorem c3_window_marking (parC curC : List CommitDict) :
    (noOverlapWindows ((lastFiveNewestFirst curC).map CommitDict.commit)
        ((lastFiveNewestFirst parC).map CommitDict.commit) = true
      ↔ ∀ h ∈ (lastFiveNewestFirst curC).map CommitDict.commit,
          h ∉ (lastFiveNewestFirst parC).map CommitDict.commit)
    ∧ (noOverlapWindows ((lastFiveNewestFirst curC).map CommitDict.commit)
        ((lastFiveNewestFirst parC).map CommitDict.commit) = true →
        ∀ c ∈ lastFiveNewestFirst curC,
          isNewMark (commitMarker
            (noOverlapWindows ((lastFiveNewestFirst curC).map CommitDict.commit)
              ((lastFiveNewestFirst parC).map CommitDict.commit))
            ((lastFiveNewestFirst parC).map CommitDict.commit) c) = true)
    ∧ (noOverlapWindows ((lastFiveNewestFirst curC).map CommitDict.commit)
        ((lastFiveNewestFirst parC).map CommitDict.commit) = false →
        ∀ c ∈ lastFiveNewestFirst curC,
          (isNewMark (commitMarker
              (noOverlapWindows ((lastFiveNewestFirst curC).map CommitDict.commit)
                ((lastFiveNewestFirst parC).map CommitDict.commit))
              ((lastFiveNewestFirst parC).map CommitDict.commit) c) = true
            ↔ c.commit ∉ (lastFiveNewestFirst parC).map CommitDict.commit)
          ∧ (commitMarker
              (noOverlapWindows ((lastFiveNewestFirst curC).map CommitDict.commit)
                ((lastFiveNewestFirst parC).map CommitDict.commit))
              ((lastFiveNewestFirst parC).map CommitDict.commit) c = "_"
            ↔ c.commit ∈ (lastFiveNewestFirst parC).map CommitDict.commit)) := by
  refine ⟨noOverlapWindows_iff _ _, ?_, ?_⟩
  · intro hno c hc
    rw [hno]
    simp [commitMarker, isNewMark]
  · intro hno c hc
    rw [hno]
    by_cases hm : c.commit ∈ (lastFiveNewestFirst parC).map CommitDict.commit
    · constructor
      · constructor
        · intro hmark
          simp [commitMarker, hm] at hmark
          simp [isNewMark] at hmark
        · intro hnot
          exact absurd hm hnot
      · simp [commitMarker, hm]
    · constructor
      · constructor
        · intro _
          exact hm
        · intro _
          simp [commitMarker, hm, isNewMark]
      · constructor
        · intro hmark
          simp [commitMarker, hm] at hmark
        · intro hmem
          exact absurd hmem hm

/-- Witness for `c3_window_marking` at the spec's own example windows:
parent hashes `{a, b, c}`, current hashes `{b, c, d}`. -/
theorem c3_window_marking_witness :
    (noOverlapWindows ((lastFiveNewestFirst
        [CommitDict.mk (some "b") none none none none,
         CommitDict.mk (some "c") none none none none,
         CommitDict.mk (some "d") none none none none]).map CommitDict.commit)
      ((lastFiveNewestFirst
        [CommitDict.mk (some "a") none none none none,
         CommitDict.mk (some "b") none none none none,
         CommitDict.mk (some "c") none none none none]).map CommitDict.commit) = true
      ↔ ∀ h ∈ (lastFiveNewestFirst
        [CommitDict.mk (some "b") none none none none,
         CommitDict.mk (some "c") none none none none,
         CommitDict.mk (some "d") none none none none]).map CommitDict.commit,
          h ∉ (lastFiveNewestFirst
        [CommitDict.mk (some "a") none none none none,
         CommitDict.mk (some "b") none none none none,
         CommitDict.mk (some "c") none none none none]).map CommitDict.commit)
    ∧ (noOverlapWindows ((lastFiveNewestFirst
        [CommitDict.mk (some "b") none none none none,
         CommitDict.mk (some "c") none none none none,
         CommitDict.mk (some "d") none none none none]).map CommitDict.commit)
        ((lastFiveNewestFirst
        [CommitDict.mk (some "a") none none none none,
         CommitDict.mk (some "b") none none none none,
         CommitDict.mk (some "c") none none none none]).map CommitDict.commit) = true →
        ∀ c ∈ lastFiveNewestFirst
        [CommitDict.mk (some "b") none none none none,
         CommitDict.mk (some "c") none none none none,
         CommitDict.mk (some "d") none none none none],
          isNewMark (commitMarker
            (noOverlapWindows ((lastFiveNewestFirst
        [CommitDict.mk (some "b") none none none none,
         CommitDict.mk (some "c") none none none none,
         CommitDict.mk (some "d") none none none none]).map CommitDict.commit)
              ((lastFiveNewestFirst
        [CommitDict.mk (some "a") none none none none,
         CommitDict.mk (some "b") none none none none,
         CommitDict.mk (some "c") none none none none]).map CommitDict.commit))
            ((lastFiveNewestFirst
        [CommitDict.mk (some "a") none none none none,
         CommitDict.mk (some "b") none none none none,
         CommitDict.mk (some "c") none none none none]).map CommitDict.commit) c) = true)
    ∧ (noOverlapWindows ((lastFiveNewestFirst
        [CommitDict.mk (some "b") none none none none,
         CommitDict.mk (some "c") none none none none,
         CommitDict.mk (some "d") none none none none]).map CommitDict.commit)
        ((lastFiveNewestFirst
        [CommitDict.mk (some "a") none none none none,
         CommitDict.mk (some "b") none none none none,
         CommitDict.mk (some "c") none none none none]).map CommitDict.commit) = false →
        ∀ c ∈ lastFiveNewestFirst
        [CommitDict.mk (some "b") none none none none,
         CommitDict.mk (some "c") none none none none,
         CommitDict.mk (some "d") none none none none],
          (isNewMark (commitMarker
              (noOverlapWindows ((lastFiveNewestFirst
        [CommitDict.mk (some "b") none none none none,
         CommitDict.mk (some "c") none none none none,
         CommitDict.mk (some "d") none none none none]).map CommitDict.commit)
                ((lastFiveNewestFirst
        [CommitDict.mk (some "a") none none none none,
         CommitDict.mk (some "b") none none none none,
         CommitDict.mk (some "c") none none none none]).map CommitDict.commit))
              ((lastFiveNewestFirst
        [CommitDict.mk (some "a") none none none none,
         CommitDict.mk (some "b") none none none none,
         CommitDict.mk (some "c") none none none none]).map CommitDict.commit) c) = true
            ↔ c.commit ∉ (lastFiveNewestFirst
        [CommitDict.mk (some "a") none none none none,
         CommitDict.mk (some "b") none none none none,
         CommitDict.mk (some "c") none none none none]).map CommitDict.commit)
          ∧ (commitMarker
              (noOverlapWindows ((lastFiveNewestFirst
        [CommitDict.mk (some "b") none none none none,
         CommitDict.mk (some "c") none none none none,
         CommitDict.mk (some "d") none none none none]).map CommitDict.commit)
                ((lastFiveNewestFirst
        [CommitDict.mk (some "a") none none none none,
         CommitDict.mk (some "b") none none none none,
         CommitDict.mk (some "c") none none none none]).map CommitDict.commit))
              ((lastFiveNewestFirst
        [CommitDict.mk (some "a") none none none none,
         CommitDict.mk (some "b") none none none none,
         CommitDict.mk (some "c") none none none none]).map CommitDict.commit) c = "_"
            ↔ c.commit ∈ (lastFiveNewestFirst
        [CommitDict.mk (some "a") none none none none,
         CommitDict.mk (some "b") none none none none,
         CommitDict.mk (some "c") none none none none]).map CommitDict.commit)) :=
  c3_window_marking
    [CommitDict.mk (some "a") none none none none,
     CommitDict.mk (some "b") none none none none,
     CommitDict.mk (some "c") none none none none]
    [CommitDict.mk (some "b") none none none none,
     CommitDict.mk (some "c") none none none none,
     CommitDict.mk (some "d") none none none none]

/-- Claim C2, counterexample: in the transition from `c2TreeParent` (repo
set `["a"]`) to `c2TreeCurrent` (repo set `["a", "b"]`), repo `"b"` is newly
added, yet the rendered section carries a non-empty Tag Changes block for
`"b"` — the renderer iterates `sorted(set(current_repos))` without excluding
new repos, so `"b"`'s tags are diffed against an empty parent manifest and
all reported as new. -/
theorem c2_counterexample :
    "b" ∈ currentRepoList c2TreeCurrent
    ∧ "b" ∉ currentRepoList c2TreeParent
    ∧ repoTagBlock emptyCtx c2TreeCurrent c2TreeParent "b" ≠ ""
    ∧ List.IsInfix ("### 🏷️ Tag Changes in **b**".toList)
        ((snapSection emptyCtx "T" c2TreeCurrent c2TreeParent).toList) := by
  decide

/-- Claim C2, amended: a repository present in the current snapshot but
absent from the parent snapshot (hence with no manifests in the parent
tree) is still included in tag and branch diffing; its parent manifests
read as empty, so every ref in its current manifests is classified as new
and none as changed or removed. -/
theorem c2_new_repo_diffed (cur par : SnapTree) (repo_id : String)
    (ht : lookupA par.tagsManifests repo_id = none)
    (hb : lookupA par.branchesManifests repo_id = none) :
    classifyNew (tagManifestAt cur repo_id) (tagManifestAt par repo_id)
        = (tagManifestAt cur repo_id).map Prod.fst
    ∧ classifyChanged (tagManifestAt cur repo_id) (tagManifestAt par repo_id) = []
    ∧ classifyRemoved (tagManifestAt cur repo_id) (tagManifestAt par repo_id) = []
    ∧ classifyNew (branchManifestAt cur repo_id) (branchManifestAt par repo_id)
        = (branchManifestAt cur repo_id).map Prod.fst
    ∧ classifyChanged (branchManifestAt cur repo_id) (branchManifestAt par repo_id) = []
    ∧ classifyRemoved (branchManifestAt cur repo_id) (branchManifestAt par repo_id) = [] := by
  have ht2 : tagManifestAt par repo_id = [] := by
    unfold tagManifestAt
    rw [ht]
    rfl
  have hb2 : branchManifestAt par repo_id = [] := by
    unfold branchManifestAt
    rw [hb]
    rfl
  rw [ht2, hb2]
  refine ⟨?_, ?_, rfl, ?_, ?_, rfl⟩
  · simp [classifyNew, lookupA]
  · simp [classifyChanged, lookupA]
  · simp [classifyNew, lookupA]
  · simp [classifyChanged, lookupA]

/-- Witness for `c2_new_repo_diffed` at the counterexample trees. -/
theorem c2_new_repo_diffed_witness :
    (lookupA c2TreeParent.tagsManifests "b" = none
      ∧ lookupA c2TreeParent.branchesManifests "b" = none)
    ∧ (classifyNew (tagManifestAt c2TreeCurrent "b") (tagManifestAt c2TreeParent "b")
        = (tagManifestAt c2TreeCurrent "b").map Prod.fst
    ∧ classifyChanged (tagManifestAt c2TreeCurrent "b") (tagManifestAt c2TreeParent "b") = []
    ∧ classifyRemoved (tagManifestAt c2TreeCurrent "b") (tagManifestAt c2TreeParent "b") = []
    ∧ classifyNew (branchManifestAt c2TreeCurrent "b") (branchManifestAt c2TreeParent "b")
        = (branchManifestAt c2TreeCurrent "b").map Prod.fst
    ∧ classifyChanged (branchManifestAt c2TreeCurrent "b")
        (branchManifestAt c2TreeParent "b") = []
    ∧ classifyRemoved (branchManifestAt c2TreeCurrent "b")
        (branchManifestAt c2TreeParent "b") = []) :=
  ⟨⟨by decide, by decide⟩,
   c2_new_repo_diffed c2TreeCurrent c2TreeParent "b" (by decide) (by decide)⟩

theorem lookupA_setA_ne {α : Type} (l : List (String × α)) (k k2 : String) (v : α)
    (h : k ≠ k2) : lookupA (setA l k v) k2 = lookupA l k2 := by
  induction l with
  | nil => simp [setA, lookupA, h]
  | cons kv rest ih =>
    by_cases hk : kv.1 = k
    · simp [setA, hk, lookupA, h]
    · simp [setA, hk, lookupA, ih]

theorem tagManifestAt_set (t : SnapTree) (rid rid2 : String) (v : RawRead Manifest) :
    tagManifestAt (setTagsManifest t rid v) rid2
      = if rid = rid2 then rawOr [] v else tagManifestAt t rid2 := by
  unfold tagManifestAt setTagsManifest
  dsimp only
  by_cases h : rid = rid2
  · subst h
    rw [TrackRefs.lookupA_setA_self]
    simp
  · rw [lookupA_setA_ne _ _ _ _ h]
    simp [h]

theorem branchManifestAt_set (t : SnapTree) (rid rid2 : String) (v : RawRead Manifest) :
    branchManifestAt (setBranchesManifest t rid v) rid2
      = if rid = rid2 then rawOr [] v else branchManifestAt t rid2 := by
  unfold branchManifestAt setBranchesManifest
  dsimp only
  by_cases h : rid = rid2
  · subst h
    rw [TrackRefs.lookupA_setA_self]
    simp
  · rw [lookupA_setA_ne _ _ _ _ h]
    simp [h]

theorem snapSection_tagsManifest_cur (ctx : RenderCtx) (time : String) (cur par : SnapTree)
    (rid : String) :
    snapSection ctx time (setTagsManifest cur rid .malformed) par
      = snapSection ctx time (setTagsManifest cur rid (.ok [])) par := by
  have hpt : ∀ rid2, tagManifestAt (setTagsManifest cur rid RawRead.malformed) rid2
      = tagManifestAt (setTagsManifest cur rid (RawRead.ok [])) rid2 := by
    intro rid2
    rw [tagManifestAt_set, tagManifestAt_set]
    by_cases h : rid = rid2 <;> simp [h, rawOr]
  have hblocks : tagsBlocks ctx (setTagsManifest cur rid .malformed) par
      = tagsBlocks ctx (setTagsManifest cur rid (.ok [])) par := by
    unfold tagsBlocks
    exact congrArg String.join (List.map_congr_left (fun rid2 _ => by
      unfold repoTagBlock
      rw [hpt rid2]
      rfl))
  unfold snapSection
  rw [hblocks]
  rfl

theorem snapSection_tagsManifest_par (ctx : RenderCtx) (time : String) (cur par : SnapTree)
    (rid : String) :
    snapSection ctx time cur (setTagsManifest par rid .malformed)
      = snapSection ctx time cur (setTagsManifest par rid (.ok [])) := by
  have hpt : ∀ rid2, tagManifestAt (setTagsManifest par rid RawRead.malformed) rid2
      = tagManifestAt (setTagsManifest par rid (RawRead.ok [])) rid2 := by
    intro rid2
    rw [tagManifestAt_set, tagManifestAt_set]
    by_cases h : rid = rid2 <;> simp [h, rawOr]
  have hblocks : tagsBlocks ctx cur (setTagsManifest par rid .malformed)
      = tagsBlocks ctx cur (setTagsManifest par rid (.ok [])) := by
    unfold tagsBlocks
    exact congrArg String.join (List.map_congr_left (fun rid2 _ => by
      unfold repoTagBlock
      rw [hpt rid2]
      rfl))
  unfold snapSection
  rw [hblocks]
  rfl

theorem snapSection_branchesManifest_cur (ctx : RenderCtx) (time : String)
    (cur par : SnapTree) (rid : String) :
    snapSection ctx time (setBranchesManifest cur rid .malformed) par
      = snapSection ctx time (setBranchesManifest cur rid (.ok [])) par := by
  have hpt : ∀ rid2, branchManifestAt (setBranchesManifest cur rid RawRead.malformed) rid2
      = branchManifestAt (setBranchesManifest cur rid (RawRead.ok [])) rid2 := by
    intro rid2
    rw [branchManifestAt_set, branchManifestAt_set]
    by_cases h : rid = rid2 <;> simp [h, rawOr]
  have hblocks : branchesBlocks ctx (setBranchesManifest cur rid .malformed) par
      = branchesBlocks ctx (setBranchesManifest cur rid (.ok [])) par := by
    unfold branchesBlocks
    exact congrArg String.join (List.map_congr_left (fun rid2 _ => by
      unfold repoBranchBlock
      rw [hpt rid2]
      rfl))
  unfold snapSection
  rw [hblocks]
  rfl

theorem snapSection_branchesManifest_par (ctx : RenderCtx) (time : String)
    (cur par : SnapTree) (rid : String) :
    snapSection ctx time cur (setBranchesManifest par rid .malformed)
      = snapSection ctx time cur (setBranchesManifest par rid (.ok [])) := by
  have hpt : ∀ rid2, branchManifestAt (setBranchesManifest par rid RawRead.malformed) rid2
      = branchManifestAt (setBranchesManifest par rid (RawRead.ok [])) rid2 := by
    intro rid2
    rw [branchManifestAt_set, branchManifestAt_set]
    by_cases h : rid = rid2 <;> simp [h, rawOr]
  have hblocks : branchesBlocks ctx cur (setBranchesManifest par rid .malformed)
      = branchesBlocks ctx cur (setBranchesManifest par rid (.ok [])) := by
    unfold branchesBlocks
    exact congrArg String.join (List.map_congr_left (fun rid2 _ => by
      unfold repoBranchBlock
      rw [hpt rid2]
      rfl))
  unfold snapSection
  rw [hblocks]
  rfl

/-- Claim C7: every persisted value that fails to parse as JSON during
rendering is treated as empty or absent and rendering continues — a
malformed per-repo manifest (on either side of the transition) renders
exactly like an empty manifest, a malformed repo-set registry renders
exactly like an empty repo list, and a malformed commit-log line is
skipped; all render functions are total, so the parse failure is never
propagated as a fatal error. -/
theorem c7_malformed_recovered (ctx : RenderCtx) (time : String) (cur par : SnapTree)
    (rid : String) (pre post : List JsonLine) :
    snapSection ctx time (setTagsManifest cur rid .malformed) par
      = snapSection ctx time (setTagsManifest cur rid (.ok [])) par
    ∧ snapSection ctx time cur (setTagsManifest par rid .malformed)
      = snapSection ctx time cur (setTagsManifest par rid (.ok []))
    ∧ snapSection ctx time (setBranchesManifest cur rid .malformed) par
      = snapSection ctx time (setBranchesManifest cur rid (.ok [])) par
    ∧ snapSection ctx time cur (setBranchesManifest par rid .malformed)
      = snapSection ctx time cur (setBranchesManifest par rid (.ok []))
    ∧ snapSection ctx time (setAllRepos cur .malformed) par
      = snapSection ctx time (setAllRepos cur (.ok [])) par
    ∧ snapSection ctx time cur (setAllRepos par .malformed)
      = snapSection ctx time cur (setAllRepos par (.ok []))
    ∧ loadCommitLines (pre ++ JsonLine.malformed :: post) = loadCommitLines (pre ++ post) :=
  ⟨snapSection_tagsManifest_cur ctx time cur par rid,
   snapSection_tagsManifest_par ctx time cur par rid,
   snapSection_branchesManifest_cur ctx time cur par rid,
   snapSection_branchesManifest_par ctx time cur par rid,
   rfl,
   rfl,
   by simp [loadCommitLines, List.filterMap_append, List.filterMap_cons]⟩

theorem string_join_cons (s : String) (l : List String) :
    String.join (s :: l) = s ++ String.join l := by
  apply String.ext
  simp

theorem snapshotBlocks_decomp (ctx : RenderCtx) :
    ∀ l : List (String × SnapTree), l ≠ [] →
      ∃ last, l.getLast? = some last
      ∧ snapshotBlocks ctx l
          = String.join ((l.zip l.tail).map (fun pr => snapSection ctx pr.1.1 pr.1.2 pr.2.2))
            ++ rootMarker last.1 := by
  intro l
  induction l with
  | nil => intro h; exact absurd rfl h
  | cons e rest ih =>
    intro _
    cases rest with
    | nil =>
      obtain ⟨t, cur⟩ := e
      exact ⟨(t, cur), rfl, rfl⟩
    | cons e2 rest2 =>
      obtain ⟨t, cur⟩ := e
      obtain ⟨t2, par⟩ := e2
      obtain ⟨last, hl, he⟩ := ih (by simp)
      refine ⟨last, ?_, ?_⟩
      · rw [List.getLast?_cons_cons]
        exact hl
      · show snapSection ctx t cur par ++ snapshotBlocks ctx ((t2, par) :: rest2) = _
        rw [he]
        simp only [List.zip_cons_cons, List.tail_cons, List.map_cons, string_join_cons]
        rw [String.append_assoc]

/-- Claim C4: for a non-empty ledger, the rendered document is, top to
bottom: the title; all events sorted by date descending (a permutation of
the input events); one section per adjacent-snapshot transition, newest
snapshot first (the sections of `ledger.reverse` zipped with its tail, each
a `snapSection` whose fixed internal order is repository-set changes,
global-tag changes, per-repo tag changes, per-repo branch changes by
construction); and finally the parentless first snapshot rendered as the
explicit non-empty root marker, never as an empty change set. -/
theorem c4_document_structure (ctx : RenderCtx) (events : List Event)
    (ledger : List (String × SnapTree)) (h : ledger ≠ []) :
    ∃ first, ledger.head? = some first
    ∧ renderTimeline ctx events ledger
        = "# Zimbra Tracker – Changes Timeline\n\n" ++ "## Events\n\n"
          ++ String.join ((sortEventsDesc events).map eventLine)
          ++ String.join ((ledger.reverse.zip ledger.reverse.tail).map
              (fun pr => snapSection ctx pr.1.1 pr.1.2 pr.2.2))
          ++ rootMarker first.1
    ∧ List.Sorted (fun a b => b.date ≤ a.date) (sortEventsDesc events)
    ∧ (sortEventsDesc events).Perm events
    ∧ rootMarker first.1 ≠ "" := by
  have hrev : ledger.reverse ≠ [] := by
    intro he
    exact h (by simpa using congrArg List.reverse he)
  obtain ⟨last, hl, he⟩ := snapshotBlocks_decomp ctx ledger.reverse hrev
  have hfirst : ledger.head? = some last := by
    rw [← List.getLast?_reverse]
    exact hl
  refine ⟨last, hfirst, ?_, ?_, ?_, ?_⟩
  · unfold renderTimeline
    rw [he, ← String.append_assoc]
  · exact List.sorted_insertionSort _ _
  · exact List.perm_insertionSort _ _
  · intro hemp
    have hlen := congrArg String.length hemp
    rw [rootMarker] at hlen
    simp only [String.length_append] at hlen
    have h1 : ("## Very first commit (".length) = 22 := by decide
    have h2 : (")\n\nIgnored on purpose.\n\n".length) = 24 := by decide
    rw [h1, h2] at hlen
    simp at hlen

/-- Witness for `c4_document_structure` at a concrete two-entry ledger and
two events. -/
theorem c4_document_structure_witness :
    ([("T0", c2TreeParent), ("T1", c2TreeCurrent)] ≠ ([] : List (String × SnapTree)))
    ∧ (∃ first,
        [("T0", c2TreeParent), ("T1", c2TreeCurrent)].head? = some first
      ∧ renderTimeline emptyCtx
          [Event.mk "E1" "2025-01-05" "d1", Event.mk "E2" "2025-02-05" "d2"]
          [("T0", c2TreeParent), ("T1", c2TreeCurrent)]
          = "# Zimbra Tracker – Changes Timeline\n\n" ++ "## Events\n\n"
            ++ String.join ((sortEventsDesc
                [Event.mk "E1" "2025-01-05" "d1", Event.mk "E2" "2025-02-05" "d2"]).map eventLine)
            ++ String.join (([("T0", c2TreeParent), ("T1", c2TreeCurrent)].reverse.zip
                [("T0", c2TreeParent), ("T1", c2TreeCurrent)].reverse.tail).map
                (fun pr => snapSection emptyCtx pr.1.1 pr.1.2 pr.2.2))
            ++ rootMarker first.1
      ∧ List.Sorted (fun a b => b.date ≤ a.date) (sortEventsDesc
          [Event.mk "E1" "2025-01-05" "d1", Event.mk "E2" "2025-02-05" "d2"])
      ∧ (sortEventsDesc
          [Event.mk "E1" "2025-01-05" "d1", Event.mk "E2" "2025-02-05" "d2"]).Perm
          [Event.mk "E1" "2025-01-05" "d1", Event.mk "E2" "2025-02-05" "d2"]
      ∧ rootMarker first.1 ≠ "") :=
  ⟨by simp,
   c4_document_structure emptyCtx
     [Event.mk "E1" "2025-01-05" "d1", Event.mk "E2" "2025-02-05" "d2"]
     [("T0", c2TreeParent), ("T1", c2TreeCurrent)] (by simp)⟩

end GenerateChanges

end ZimbraTracker
